import Mathlib

/-!
Wire protocol of the neo range finder (`src/protocol.cpp`)

A shallow embedding of the packet encoders and decoders of `neo::protocol`.

* Bytes (`uint8_t`) are `Fin 256`; C integer arithmetic is carried out in `Nat` on the
  byte values, with the truncation of the declared result type written out.
* A C function `void f(serial, ..., T* out, error_s* error)` becomes a function that takes
  the transport state and the caller's buffer and returns the transport state, the buffer
  and the error slot after the call (`none`: the slot was not assigned).
* The serial layer and the packet structs of `protocol.h` are not part of the sources;
  they are modelled below and marked as such.
-/

namespace neo

/-- A `uint8_t`. -/
abbrev Byte := Fin 256

namespace serial

/-- Modelled from the spec: the serial transport (`serial::device_s`, declared in a header
that is not part of the sources). `rx` holds the bytes the transport is still able to
deliver, in order; a read fails when fewer bytes are left than were asked for. `reads`
logs the length of every `device_read` call, `writes` the buffer of every `device_write`
call, and `writeFails` tells whether the transport reports a failure on a write. -/
structure Device where
  rx : List Byte
  reads : List Nat
  writes : List (List Byte)
  writeFails : Bool
deriving DecidableEq, Repr

/-- Modelled from the spec: `serial::device_read(serial, buf, n, &serialerror)`, "must fill
exactly `length` bytes or fail; no partial-read success". The result is the transport
afterwards, the buffer afterwards and whether `serialerror` was set. A failing read leaves
the bytes it did get at the start of the buffer and the rest of the buffer as it was. -/
def device_read (serial : Device) (buf : List Byte) (n : Nat) : Device × List Byte × Bool :=
  if n ≤ serial.rx.length then
    ({ serial with rx := serial.rx.drop n, reads := serial.reads ++ [n] },
      serial.rx.take n ++ buf.drop n, false)
  else
    ({ serial with rx := [], reads := serial.reads ++ [n] },
      serial.rx ++ buf.drop serial.rx.length, true)

/-- Modelled from the spec: `serial::device_write(serial, buf, n, &serialerror)`, "must
write exactly `length` bytes or fail". The result is the transport afterwards and whether
`serialerror` was set. -/
def device_write (serial : Device) (buf : List Byte) : Device × Bool :=
  ({ serial with writes := serial.writes ++ [buf] }, serial.writeFails)

end serial

namespace protocol

open serial

/-- The byte of an ASCII character literal. -/
def ascii (c : Char) : Byte := Fin.ofNat c.toNat

/-- A command code, `const uint8_t cmd[2]`. -/
structure Cmd where
  b0 : Byte
  b1 : Byte
deriving DecidableEq, Repr

def DATA_ACQUISITION_START : Cmd := ⟨ascii 'D', ascii 'S'⟩
def DATA_ACQUISITION_STOP : Cmd := ⟨ascii 'D', ascii 'X'⟩
def MOTOR_SPEED_ADJUST : Cmd := ⟨ascii 'M', ascii 'S'⟩
def MOTOR_INFORMATION : Cmd := ⟨ascii 'M', ascii 'I'⟩
def SAMPLE_RATE_ADJUST : Cmd := ⟨ascii 'L', ascii 'R'⟩
def SAMPLE_RATE_INFORMATION : Cmd := ⟨ascii 'L', ascii 'I'⟩
def VERSION_INFORMATION : Cmd := ⟨ascii 'I', ascii 'V'⟩
def DEVICE_INFORMATION : Cmd := ⟨ascii 'I', ascii 'D'⟩
def RESET_DEVICE : Cmd := ⟨ascii 'R', ascii 'R'⟩
def DEVICE_CALIBRATION : Cmd := ⟨ascii 'C', ascii 'S'⟩

/-- What a decoder leaves behind: the transport, the caller's buffer and `*error`
(`none` when the function returned without assigning it). -/
structure Result (α : Type) where
  serial : Device
  out : α
  error : Option String
deriving DecidableEq, Repr

/-! ## Packet structs (declared in `protocol.h`) -/

/-- Modelled from the spec: `cmd_packet_s`, "cmd (2 bytes) + terminator (1 byte, fixed
`\n`)", always 3 bytes on the wire. The field names are those `write_command` assigns. -/
structure cmd_packet_s where
  cmdByte1 : Byte
  cmdByte2 : Byte
  cmdParamTerm : Byte
deriving DecidableEq, Repr

/-- Modelled from the spec: the memory image of `cmd_packet_s`, fields in order. -/
def cmd_packet_s.toBytes (p : cmd_packet_s) : List Byte :=
  [p.cmdByte1, p.cmdByte2, p.cmdParamTerm]

/-- Modelled from the spec: `cmd_param_packet_s`, "cmd (2 bytes) + arg (2 bytes) +
terminator (1 byte)", always 5 bytes. The field names are those
`write_command_with_arguments` assigns. -/
structure cmd_param_packet_s where
  cmdByte1 : Byte
  cmdByte2 : Byte
  cmdParamByte1 : Byte
  cmdParamByte2 : Byte
  cmdParamTerm : Byte
deriving DecidableEq, Repr

/-- Modelled from the spec: the memory image of `cmd_param_packet_s`, fields in order. -/
def cmd_param_packet_s.toBytes (p : cmd_param_packet_s) : List Byte :=
  [p.cmdByte1, p.cmdByte2, p.cmdParamByte1, p.cmdParamByte2, p.cmdParamTerm]

/-- Modelled from the spec: `response_header_s`, "cmd-echo (2 bytes) + status (2 bytes) +
checksum (1 byte)". The field names are those `read_response_header` reads. -/
structure response_header_s where
  cmdByte1 : Byte
  cmdByte2 : Byte
  cmdStatusByte1 : Byte
  cmdStatusByte2 : Byte
  cmdSum : Byte
deriving DecidableEq, Repr

/-- Modelled from the spec: `sizeof(response_header_s)`. -/
def response_header_s.size : Nat := 5

/-- Modelled from the spec: the memory image of `response_header_s`, fields in order. -/
def response_header_s.toBytes (h : response_header_s) : List Byte :=
  [h.cmdByte1, h.cmdByte2, h.cmdStatusByte1, h.cmdStatusByte2, h.cmdSum]

/-- Modelled from the spec: the `response_header_s` laid over a memory image. -/
def response_header_s.ofBytes (m : List Byte) : response_header_s :=
  ⟨m.getD 0 0, m.getD 1 0, m.getD 2 0, m.getD 3 0, m.getD 4 0⟩

/-- Modelled from the spec: `response_param_s`, "cmd-echo (2 bytes) + status (2 bytes) +
checksum (1 byte)". The field names are those `read_response_param` reads. -/
structure response_param_s where
  cmdByte1 : Byte
  cmdByte2 : Byte
  cmdStatusByte1 : Byte
  cmdStatusByte2 : Byte
  cmdSum : Byte
deriving DecidableEq, Repr

/-- Modelled from the spec: `sizeof(response_param_s)`. -/
def response_param_s.size : Nat := 5

/-- Modelled from the spec: the memory image of `response_param_s`, fields in order. -/
def response_param_s.toBytes (h : response_param_s) : List Byte :=
  [h.cmdByte1, h.cmdByte2, h.cmdStatusByte1, h.cmdStatusByte2, h.cmdSum]

/-- Modelled from the spec: the `response_param_s` laid over a memory image. -/
def response_param_s.ofBytes (m : List Byte) : response_param_s :=
  ⟨m.getD 0 0, m.getD 1 0, m.getD 2 0, m.getD 3 0, m.getD 4 0⟩

/-- Modelled from the spec: `response_info_motor_s`, "cmd-echo (2 bytes) + payload
fields". The spec does not give the payload's size: it is the length of `payload` in the
buffer the caller hands over. -/
structure response_info_motor_s where
  cmdByte1 : Byte
  cmdByte2 : Byte
  payload : List Byte
deriving DecidableEq, Repr

/-- Modelled from the spec: the memory image of `response_info_motor_s`. -/
def response_info_motor_s.toBytes (i : response_info_motor_s) : List Byte :=
  i.cmdByte1 :: i.cmdByte2 :: i.payload

/-- Modelled from the spec: the `response_info_motor_s` laid over a memory image. -/
def response_info_motor_s.ofBytes (m : List Byte) : response_info_motor_s :=
  ⟨m.getD 0 0, m.getD 1 0, m.drop 2⟩

/-- Modelled from the spec: `response_info_sample_rate_s`, "cmd-echo (2 bytes) + payload
fields". The spec does not give the payload's size: it is the length of `payload` in the
buffer the caller hands over. -/
structure response_info_sample_rate_s where
  cmdByte1 : Byte
  cmdByte2 : Byte
  payload : List Byte
deriving DecidableEq, Repr

/-- Modelled from the spec: the memory image of `response_info_sample_rate_s`. -/
def response_info_sample_rate_s.toBytes (i : response_info_sample_rate_s) : List Byte :=
  i.cmdByte1 :: i.cmdByte2 :: i.payload

/-- Modelled from the spec: the `response_info_sample_rate_s` laid over a memory image. -/
def response_info_sample_rate_s.ofBytes (m : List Byte) : response_info_sample_rate_s :=
  ⟨m.getD 0 0, m.getD 1 0, m.drop 2⟩

/-- Modelled from the spec: `response_scan_packet_s`, given as its memory image. The spec
lists "sync bits s1,s2 (2 bits) + strength flag VHL (1 bit) + distance-low (packed with the
above into 1 byte) + distance-high (1 byte) + angle (2 bytes) + VRECT (nibble) + checksum"
and speaks of "the sliding 5-byte window"; `read_response_scan` shifts and refills exactly
the bytes `p[0] .. p[4]`. The record is therefore five bytes, the last of which holds the
`VRECT` nibble together with the checksum, and the struct's fields are the accessors
below. -/
structure response_scan_packet_s where
  p0 : Byte
  p1 : Byte
  p2 : Byte
  p3 : Byte
  p4 : Byte
deriving DecidableEq, Repr

namespace response_scan_packet_s

/-- Modelled from the spec: `sizeof(response_scan_packet_s)`, the record length. -/
def size : Nat := 5

/-- Modelled from the spec: the memory image, `p[0] .. p[4]`. -/
def toBytes (v : response_scan_packet_s) : List Byte := [v.p0, v.p1, v.p2, v.p3, v.p4]

/-- Modelled from the spec: the record laid over a memory image. -/
def ofBytes (m : List Byte) : response_scan_packet_s :=
  ⟨m.getD 0 0, m.getD 1 0, m.getD 2 0, m.getD 3 0, m.getD 4 0⟩

/-- Modelled from the spec: sync bit `s1`, the lowest bit of the first byte. -/
def s1 (v : response_scan_packet_s) : Nat := v.p0.val % 2

/-- Modelled from the spec: sync bit `s2`, the second-lowest bit of the first byte. -/
def s2 (v : response_scan_packet_s) : Nat := v.p0.val / 2 % 2

/-- Modelled from the spec: strength flag `VHL`, the third bit of the first byte. -/
def VHL (v : response_scan_packet_s) : Nat := v.p0.val / 4 % 2

/-- Modelled from the spec: `distance_low`, the remaining high bits of the first byte. -/
def distance_low (v : response_scan_packet_s) : Nat := v.p0.val / 8

/-- Modelled from the spec: `distance_high`, the second byte. -/
def distance_high (v : response_scan_packet_s) : Nat := v.p1.val

/-- Modelled from the spec: `angle`, the 16-bit value held in the third and fourth bytes. -/
def angle (v : response_scan_packet_s) : Nat := v.p2.val + 256 * v.p3.val

/-- Modelled from the spec: `VRECT`, a nibble: the high half of the last byte. -/
def VRECT (v : response_scan_packet_s) : Nat := v.p4.val / 16

/-- Modelled from the spec: the transmitted `checksum`, the low half of the last byte. -/
def checksum (v : response_scan_packet_s) : Nat := v.p4.val % 16

end response_scan_packet_s

/-! ## `protocol.cpp` -/

/-- `checksum_response_header`: `int` arithmetic on the two status bytes, returned as
`uint8_t`. -/
def checksum_response_header (v : response_header_s) : Nat :=
  (((v.cmdStatusByte1.val + v.cmdStatusByte2.val) &&& 0x3F) + 0x30) % 256

/-- `checksum_response_param`. -/
def checksum_response_param (v : response_param_s) : Nat :=
  (((v.cmdStatusByte1.val + v.cmdStatusByte2.val) &&& 0x3F) + 0x30) % 256

/-- `checksum_response_scan_packet`: the sum is accumulated in a `uint64_t`, reduced
`% 15` and returned as `uint8_t`. -/
def checksum_response_scan_packet (v : response_scan_packet_s) : Nat :=
  let checksum : Nat := 0
  let checksum := (checksum + ((v.distance_low <<< 3) + (v.VHL <<< 2) + (v.s2 <<< 1) + v.s1)) % 2 ^ 64
  let checksum := (checksum + v.distance_high) % 2 ^ 64
  let checksum := (checksum + (v.angle &&& 0x00ff)) % 2 ^ 64
  let checksum := (checksum + (v.angle >>> 8)) % 2 ^ 64
  let checksum := (checksum + (v.VRECT <<< 4)) % 2 ^ 64
  (checksum % 15) % 256

/-- `write_command`: the transport afterwards and `*error`. -/
def write_command (serial : Device) (cmd : Cmd) : Device × Option String :=
  let packet : cmd_packet_s :=
    { cmdByte1 := cmd.b0, cmdByte2 := cmd.b1, cmdParamTerm := ascii '\n' }
  let (serial, serialerror) := device_write serial packet.toBytes
  if serialerror then (serial, some "unable to write command") else (serial, none)

/-- `write_command_with_arguments`: the transport afterwards and `*error`. -/
def write_command_with_arguments (serial : Device) (cmd : Cmd) (arg : Cmd) :
    Device × Option String :=
  let packet : cmd_param_packet_s :=
    { cmdByte1 := cmd.b0, cmdByte2 := cmd.b1, cmdParamByte1 := arg.b0,
      cmdParamByte2 := arg.b1, cmdParamTerm := ascii '\n' }
  let (serial, serialerror) := device_write serial packet.toBytes
  if serialerror then (serial, some "unable to write command with arguments")
  else (serial, none)

/-- `read_response_header`. -/
def read_response_header (serial : Device) (cmd : Cmd) (header : response_header_s) :
    Result response_header_s :=
  let (serial, m, serialerror) := device_read serial header.toBytes response_header_s.size
  let header := response_header_s.ofBytes m
  if serialerror then ⟨serial, header, some "unable to read response header"⟩
  else
    let checksum := checksum_response_header header
    if checksum ≠ header.cmdSum.val then
      ⟨serial, header, some "invalid response header checksum"⟩
    else
      let ok := header.cmdByte1 == cmd.b0 && header.cmdByte2 == cmd.b1
      if !ok then ⟨serial, header, some "invalid header response commands"⟩
      else ⟨serial, header, none⟩

/-- `read_response_param`. -/
def read_response_param (serial : Device) (cmd : Cmd) (param : response_param_s) :
    Result response_param_s :=
  let (serial, m, serialerror) := device_read serial param.toBytes response_param_s.size
  let param := response_param_s.ofBytes m
  if serialerror then ⟨serial, param, some "unable to read response param header"⟩
  else
    let checksum := checksum_response_param param
    if checksum ≠ param.cmdSum.val then
      ⟨serial, param, some "invalid response param header checksum"⟩
    else
      let ok := param.cmdByte1 == cmd.b0 && param.cmdByte2 == cmd.b1
      if !ok then ⟨serial, param, some "invalid param response commands"⟩
      else ⟨serial, param, none⟩

/-- The state of the `while` loop of `read_response_scan` when it is left: the transport,
the window, the local `checksum`, the local `count`, and whether the loop was left through
the `return` of a failed single-byte read. -/
structure ScanLoop where
  serial : Device
  scan : response_scan_packet_s
  checksum : Nat
  count : Nat
  readFailed : Bool
deriving DecidableEq, Repr

/-- The `while (checksum != scan->checksum && count > 0)` loop of `read_response_scan`,
by recursion on `count`. -/
def scan_loop : Nat → Device → response_scan_packet_s → Nat → ScanLoop
  | 0, serial, scan, checksum => ⟨serial, scan, checksum, 0, false⟩
  | count + 1, serial, scan, checksum =>
    if checksum ≠ scan.checksum then
      -- p[0] = p[1]; p[1] = p[2]; p[2] = p[3]; p[3] = p[4];
      let scan : response_scan_packet_s := ⟨scan.p1, scan.p2, scan.p3, scan.p4, scan.p4⟩
      -- serial::device_read(serial, &(p[4]), 1, &serialerror);
      let (serial, m, serialerror) := device_read serial [scan.p4] 1
      let scan : response_scan_packet_s := { scan with p4 := m.getD 0 0 }
      if serialerror then ⟨serial, scan, checksum, count + 1, true⟩
      else
        let checksum := checksum_response_scan_packet scan
        let checksum := if scan.p0.val &&& 0x03 ≠ 0x00 then 0x00 else checksum
        scan_loop count serial scan checksum
    else ⟨serial, scan, checksum, count + 1, false⟩

/-- `read_response_scan`. -/
def read_response_scan (serial : Device) (scan : response_scan_packet_s) :
    Result response_scan_packet_s :=
  let (serial, m, serialerror) := device_read serial scan.toBytes response_scan_packet_s.size
  let scan := response_scan_packet_s.ofBytes m
  if serialerror then ⟨serial, scan, some "invalid response scan packet checksum"⟩
  else
    let checksum := checksum_response_scan_packet scan
    let st := scan_loop 100 serial scan checksum
    if st.readFailed then ⟨st.serial, st.scan, some "invalid response scan packet checksum"⟩
    else if st.checksum ≠ st.scan.checksum then
      ⟨st.serial, st.scan, some "invalid scan response commands"⟩
    else ⟨st.serial, st.scan, none⟩

/-- `read_response_info_motor`. -/
def read_response_info_motor (serial : Device) (cmd : Cmd) (info : response_info_motor_s) :
    Result response_info_motor_s :=
  let (serial, m, serialerror) := device_read serial info.toBytes info.toBytes.length
  let info := response_info_motor_s.ofBytes m
  if serialerror then ⟨serial, info, some "unable to read response motor info"⟩
  else
    let ok := info.cmdByte1 == cmd.b0 && info.cmdByte2 == cmd.b1
    if !ok then ⟨serial, info, some "invalid motor info response commands"⟩
    else ⟨serial, info, none⟩

/-- `read_response_info_sample_rate`. -/
def read_response_info_sample_rate (serial : Device) (cmd : Cmd)
    (info : response_info_sample_rate_s) : Result response_info_sample_rate_s :=
  let (serial, m, serialerror) := device_read serial info.toBytes info.toBytes.length
  let info := response_info_sample_rate_s.ofBytes m
  if serialerror then ⟨serial, info, some "unable to read response sample rate info"⟩
  else
    let ok := info.cmdByte1 == cmd.b0 && info.cmdByte2 == cmd.b1
    if !ok then ⟨serial, info, some "invalid sample rate info response commands"⟩
    else ⟨serial, info, none⟩

/-! ## Vocabulary of the statements about `read_response_scan` -/

/-- The checksum comparison on a window: the transmitted checksum equals the one
`checksum_response_scan_packet` computes from the window's own fields. -/
def checksum_ok (w : response_scan_packet_s) : Prop :=
  checksum_response_scan_packet w = w.checksum

instance (w : response_scan_packet_s) : Decidable (checksum_ok w) :=
  inferInstanceAs (Decidable (checksum_response_scan_packet w = w.checksum))

/-- Validity of a record as the specification words it: the checksum matches and the
sync bits are `s1 = 1`, `s2 = 0`. -/
def spec_valid (w : response_scan_packet_s) : Prop :=
  checksum_ok w ∧ w.s1 = 1 ∧ w.s2 = 0

instance (w : response_scan_packet_s) : Decidable (spec_valid w) :=
  inferInstanceAs (Decidable (checksum_ok w ∧ w.s1 = 1 ∧ w.s2 = 0))

/-- The window at byte offset `k` of a stream: the five bytes `b_k .. b_(k+4)`. -/
def windowAt (s : List Byte) (k : Nat) : response_scan_packet_s :=
  ⟨s.getD k 0, s.getD (k + 1) 0, s.getD (k + 2) 0, s.getD (k + 3) 0, s.getD (k + 4) 0⟩

/-- The value the loop body of `read_response_scan` leaves in `checksum` once the window
has been refilled to `w`: the computed checksum, replaced by `0x00` when
`(p[0] & 0x03) != 0x00`. -/
def loop_checksum (w : response_scan_packet_s) : Nat :=
  if w.p0.val &&& 0x03 ≠ 0x00 then 0x00 else checksum_response_scan_packet w

/-- The number of shifts a call of `read_response_scan` made, read off the transport's log:
the reads it added to the log, less the initial full-window read. -/
def shifts (before after : Device) : Nat :=
  after.reads.length - before.reads.length - 1

/-- The test `read_response_scan` applies to the window it holds after `k` shifts of the
stream `s`: before any shift the comparison of the computed with the transmitted checksum,
after a shift the comparison of the loop's `checksum` with the transmitted checksum. -/
def window_passes (s : List Byte) (k : Nat) : Prop :=
  if k = 0 then checksum_ok (windowAt s 0)
  else loop_checksum (windowAt s k) = (windowAt s k).checksum

instance (s : List Byte) (k : Nat) : Decidable (window_passes s k) :=
  inferInstanceAs (Decidable (if k = 0 then checksum_ok (windowAt s 0)
    else loop_checksum (windowAt s k) = (windowAt s k).checksum))

/-- The sum `checksum_response_scan_packet` forms, taken in the integers without any
wrap-around of the accumulator. -/
def scan_sum (v : response_scan_packet_s) : Nat :=
  ((v.distance_low <<< 3) + (v.VHL <<< 2) + (v.s2 <<< 1) + v.s1) + v.distance_high
    + (v.angle &&& 0x00ff) + (v.angle >>> 8) + (v.VRECT <<< 4)

/-- The acceptance predicate of a window reached by shifting, spelled out: either the two
lowest bits of its first byte are both 0 and its transmitted checksum equals the mod-15
checksum `(((distance_low<<3)+(VHL<<2)+(s2<<1)+s1) + distance_high + (angle&0xFF) +
(angle>>8) + (VRECT<<4)) mod 15` of the window, or they are not both 0 and its
transmitted checksum is 0. -/
def resync_accepts (w : response_scan_packet_s) : Prop :=
  (w.s1 = 0 ∧ w.s2 = 0 ∧ w.checksum = scan_sum w % 15) ∨
    (¬ (w.s1 = 0 ∧ w.s2 = 0) ∧ w.checksum = 0)

instance (w : response_scan_packet_s) : Decidable (resync_accepts w) :=
  inferInstanceAs (Decidable ((w.s1 = 0 ∧ w.s2 = 0 ∧ w.checksum = scan_sum w % 15) ∨
    (¬ (w.s1 = 0 ∧ w.s2 = 0) ∧ w.checksum = 0)))

/-- The number of bytes a call asked the transport for, read off the transport's log: the
sum of the lengths of the reads the call added. -/
def requested (before after : Device) : Nat :=
  (after.reads.drop before.reads.length).sum

/-- The ten exported command codes, in the order of their declarations. -/
def command_codes : List Cmd :=
  [DATA_ACQUISITION_START, DATA_ACQUISITION_STOP, MOTOR_SPEED_ADJUST, MOTOR_INFORMATION,
    SAMPLE_RATE_ADJUST, SAMPLE_RATE_INFORMATION, VERSION_INFORMATION, DEVICE_INFORMATION,
    RESET_DEVICE, DEVICE_CALIBRATION]

/-! ## Lemmas on the fixed-size decoders -/

theorem and_three (x : Nat) : x &&& 3 = x % 4 := Nat.and_pow_two_sub_one_eq_mod x 2

theorem status_checksum_fits (x : Nat) : ((x &&& 0x3F) + 0x30) % 256 = (x &&& 0x3F) + 0x30 := by
  have h : x &&& 0x3F ≤ 0x3F := Nat.and_le_right
  omega

/-- The whole outcome of `read_response_header` when the transport delivers the five
bytes of a response. -/
theorem read_response_header_eq (serial : Device) (cmd : Cmd) (header : response_header_s)
    (c1 c2 s1 s2 sum : Byte) (rest : List Byte)
    (hrx : serial.rx = c1 :: c2 :: s1 :: s2 :: sum :: rest) :
    read_response_header serial cmd header =
      ⟨{ serial with rx := rest, reads := serial.reads ++ [response_header_s.size] },
        ⟨c1, c2, s1, s2, sum⟩,
        if ((s1.val + s2.val) &&& 0x3F) + 0x30 ≠ sum.val then
          some "invalid response header checksum"
        else if ¬ (c1 = cmd.b0 ∧ c2 = cmd.b1) then some "invalid header response commands"
        else none⟩ := by
  by_cases h1 : ((s1.val + s2.val) &&& 0x3F) + 0x30 = sum.val <;>
  by_cases h2 : c1 = cmd.b0 <;> by_cases h3 : c2 = cmd.b1 <;>
  simp [read_response_header, device_read, hrx, response_header_s.size,
    response_header_s.ofBytes, checksum_response_header, status_checksum_fits, h1, h2, h3]

/-- The whole outcome of `read_response_param` when the transport delivers the five bytes
of a response. -/
theorem read_response_param_eq (serial : Device) (cmd : Cmd) (param : response_param_s)
    (c1 c2 s1 s2 sum : Byte) (rest : List Byte)
    (hrx : serial.rx = c1 :: c2 :: s1 :: s2 :: sum :: rest) :
    read_response_param serial cmd param =
      ⟨{ serial with rx := rest, reads := serial.reads ++ [response_param_s.size] },
        ⟨c1, c2, s1, s2, sum⟩,
        if ((s1.val + s2.val) &&& 0x3F) + 0x30 ≠ sum.val then
          some "invalid response param header checksum"
        else if ¬ (c1 = cmd.b0 ∧ c2 = cmd.b1) then some "invalid param response commands"
        else none⟩ := by
  by_cases h1 : ((s1.val + s2.val) &&& 0x3F) + 0x30 = sum.val <;>
  by_cases h2 : c1 = cmd.b0 <;> by_cases h3 : c2 = cmd.b1 <;>
  simp [read_response_param, device_read, hrx, response_param_s.size,
    response_param_s.ofBytes, checksum_response_param, status_checksum_fits, h1, h2, h3]

/-- A read of `n + 2` bytes into a buffer of that size, when the bytes are there. -/
theorem device_read_two (serial : Device) (c1 c2 : Byte) (rest buf : List Byte) (n : Nat)
    (hrx : serial.rx = c1 :: c2 :: rest) (hlen : n ≤ rest.length) (hbuf : buf.length = n + 2) :
    device_read serial buf (n + 2) =
      ({ serial with rx := rest.drop n, reads := serial.reads ++ [n + 2] },
        c1 :: c2 :: rest.take n, false) := by
  have h : n + 2 ≤ serial.rx.length := by simp [hrx]; omega
  have hd : buf.drop (n + 2) = [] := List.drop_eq_nil_of_le (by omega)
  simp [device_read, h, hd]
  simp [hrx]

/-- The whole outcome of `read_response_info_motor` when the transport delivers a
response of the struct's size. -/
theorem read_response_info_motor_eq (serial : Device) (cmd : Cmd) (info : response_info_motor_s)
    (c1 c2 : Byte) (rest : List Byte)
    (hrx : serial.rx = c1 :: c2 :: rest) (hlen : info.payload.length ≤ rest.length) :
    read_response_info_motor serial cmd info =
      ⟨{ serial with rx := rest.drop info.payload.length,
                     reads := serial.reads ++ [info.payload.length + 2] },
        ⟨c1, c2, rest.take info.payload.length⟩,
        if ¬ (c1 = cmd.b0 ∧ c2 = cmd.b1) then some "invalid motor info response commands"
        else none⟩ := by
  have hl : info.toBytes.length = info.payload.length + 2 := by
    simp [response_info_motor_s.toBytes]
  by_cases h2 : c1 = cmd.b0 <;> by_cases h3 : c2 = cmd.b1 <;>
  simp [read_response_info_motor, hl, device_read_two serial c1 c2 rest _ _ hrx hlen hl,
    response_info_motor_s.ofBytes, h2, h3]

/-- The transport cannot deliver a whole motor-info response. -/
theorem read_response_info_motor_short (serial : Device) (cmd : Cmd)
    (info : response_info_motor_s) (hrx : serial.rx.length < info.payload.length + 2) :
    (read_response_info_motor serial cmd info).error
      = some "unable to read response motor info" := by
  have hl : info.toBytes.length = info.payload.length + 2 := by
    simp [response_info_motor_s.toBytes]
  have : ¬ (info.payload.length + 2 ≤ serial.rx.length) := by omega
  simp [read_response_info_motor, device_read, hl, this]

/-- The whole outcome of `read_response_info_sample_rate` when the transport delivers a
response of the struct's size. -/
theorem read_response_info_sample_rate_eq (serial : Device) (cmd : Cmd)
    (info : response_info_sample_rate_s) (c1 c2 : Byte) (rest : List Byte)
    (hrx : serial.rx = c1 :: c2 :: rest) (hlen : info.payload.length ≤ rest.length) :
    read_response_info_sample_rate serial cmd info =
      ⟨{ serial with rx := rest.drop info.payload.length,
                     reads := serial.reads ++ [info.payload.length + 2] },
        ⟨c1, c2, rest.take info.payload.length⟩,
        if ¬ (c1 = cmd.b0 ∧ c2 = cmd.b1) then some "invalid sample rate info response commands"
        else none⟩ := by
  have hl : info.toBytes.length = info.payload.length + 2 := by
    simp [response_info_sample_rate_s.toBytes]
  by_cases h2 : c1 = cmd.b0 <;> by_cases h3 : c2 = cmd.b1 <;>
  simp [read_response_info_sample_rate, hl, device_read_two serial c1 c2 rest _ _ hrx hlen hl,
    response_info_sample_rate_s.ofBytes, h2, h3]

/-- The transport cannot deliver a whole sample-rate-info response. -/
theorem read_response_info_sample_rate_short (serial : Device) (cmd : Cmd)
    (info : response_info_sample_rate_s) (hrx : serial.rx.length < info.payload.length + 2) :
    (read_response_info_sample_rate serial cmd info).error
      = some "unable to read response sample rate info" := by
  have hl : info.toBytes.length = info.payload.length + 2 := by
    simp [response_info_sample_rate_s.toBytes]
  have : ¬ (info.payload.length + 2 ≤ serial.rx.length) := by omega
  simp [read_response_info_sample_rate, device_read, hl, this]

/-- Whatever the transport holds, `read_response_header` makes one read of the header's
size. -/
theorem read_response_header_reads (serial : Device) (cmd : Cmd) (header : response_header_s) :
    (read_response_header serial cmd header).serial.reads
      = serial.reads ++ [response_header_s.size] := by
  unfold read_response_header device_read
  by_cases h : response_header_s.size ≤ serial.rx.length
  · simp only [h, if_true]
    split <;> [rfl; (split <;> [rfl; (split <;> rfl)])]
  · simp only [h, if_false]
    split <;> [rfl; (split <;> [rfl; (split <;> rfl)])]

/-- Whatever the transport holds, `read_response_param` makes one read of the struct's
size. -/
theorem read_response_param_reads (serial : Device) (cmd : Cmd) (param : response_param_s) :
    (read_response_param serial cmd param).serial.reads
      = serial.reads ++ [response_param_s.size] := by
  unfold read_response_param device_read
  by_cases h : response_param_s.size ≤ serial.rx.length
  · simp only [h, if_true]
    split <;> [rfl; (split <;> [rfl; (split <;> rfl)])]
  · simp only [h, if_false]
    split <;> [rfl; (split <;> [rfl; (split <;> rfl)])]

/-! ## Lemmas on the resynchronisation loop -/

/-- The loop is not entered (or is left) when the comparison succeeds. -/
theorem scan_loop_stop (n : Nat) (serial : Device) (scan : response_scan_packet_s) (ck : Nat)
    (h : ck = scan.checksum) : scan_loop n serial scan ck = ⟨serial, scan, ck, n, false⟩ := by
  cases n with
  | zero => rfl
  | succ n => simp [scan_loop, h]

/-- One turn of the loop when the comparison fails and the transport has a byte. -/
theorem scan_loop_shift (n : Nat) (serial : Device) (scan : response_scan_packet_s) (ck : Nat)
    (b : Byte) (rest : List Byte) (h : ck ≠ scan.checksum) (hrx : serial.rx = b :: rest) :
    scan_loop (n + 1) serial scan ck =
      scan_loop n { serial with rx := rest, reads := serial.reads ++ [1] }
        ⟨scan.p1, scan.p2, scan.p3, scan.p4, b⟩
        (loop_checksum ⟨scan.p1, scan.p2, scan.p3, scan.p4, b⟩) := by
  simp [scan_loop, h, device_read, hrx, loop_checksum]

/-- One turn of the loop when the comparison fails and the transport has no byte left. -/
theorem scan_loop_starve (n : Nat) (serial : Device) (scan : response_scan_packet_s) (ck : Nat)
    (h : ck ≠ scan.checksum) (hrx : serial.rx = []) :
    scan_loop (n + 1) serial scan ck =
      ⟨{ serial with rx := [], reads := serial.reads ++ [1] },
        ⟨scan.p1, scan.p2, scan.p3, scan.p4, scan.p4⟩, ck, n + 1, true⟩ := by
  simp [scan_loop, h, device_read, hrx]

theorem drop_eq_getD_cons (s : List Byte) (k : Nat) (h : k < s.length) :
    s.drop k = s.getD k 0 :: s.drop (k + 1) := by
  rw [List.drop_eq_getElem_cons h]
  simp [List.getD_eq_getElem?_getD, List.getElem?_eq_getElem h]

/-- `read_response_scan` once its first read has delivered a full window. -/
theorem read_response_scan_eq (serial : Device) (scan : response_scan_packet_s)
    (h : 5 ≤ serial.rx.length) :
    read_response_scan serial scan =
      let st := scan_loop 100 { serial with rx := serial.rx.drop 5, reads := serial.reads ++ [5] }
        (windowAt serial.rx 0) (checksum_response_scan_packet (windowAt serial.rx 0))
      if st.readFailed then ⟨st.serial, st.scan, some "invalid response scan packet checksum"⟩
      else if st.checksum ≠ st.scan.checksum then
        ⟨st.serial, st.scan, some "invalid scan response commands"⟩
      else ⟨st.serial, st.scan, none⟩ := by
  have hw : response_scan_packet_s.ofBytes
      (List.take 5 serial.rx ++ List.drop 5 scan.toBytes) = windowAt serial.rx 0 := by
    obtain ⟨rx, _, _, _⟩ := serial
    match rx, h with
    | b0 :: b1 :: b2 :: b3 :: b4 :: rest, _ =>
      simp [response_scan_packet_s.ofBytes, windowAt, response_scan_packet_s.toBytes]
  simp only [read_response_scan, device_read, response_scan_packet_s.size, h, if_true, hw]
  simp

/-- `read_response_scan` when its first read fails. -/
theorem read_response_scan_short (serial : Device) (scan : response_scan_packet_s)
    (h : serial.rx.length < 5) :
    (read_response_scan serial scan).error = some "invalid response scan packet checksum" := by
  have : ¬ (5 ≤ serial.rx.length) := by omega
  simp [read_response_scan, device_read, response_scan_packet_s.size, this]

/-- Every window the loop looks at is refused and the stream is long enough: the loop makes
`n` shifts and stops on `count = 0`. -/
theorem scan_loop_exhaust (s : List Byte) :
    ∀ (n k : Nat) (serial : Device) (ck : Nat),
      serial.rx = s.drop (k + 5) → k + 5 + n ≤ s.length →
      ck ≠ (windowAt s k).checksum →
      (∀ j, k < j → j ≤ k + n →
        loop_checksum (windowAt s j) ≠ (windowAt s j).checksum) →
      scan_loop n serial (windowAt s k) ck =
        ⟨{ serial with rx := s.drop (k + 5 + n),
                       reads := serial.reads ++ List.replicate n 1 },
          windowAt s (k + n),
          if n = 0 then ck else loop_checksum (windowAt s (k + n)), 0, false⟩ := by
  intro n
  induction n with
  | zero =>
    intro k serial ck hrx _ _ _
    simp [scan_loop, ← hrx]
  | succ n ih =>
    intro k serial ck hrx hlen hck hall
    have hrx2 : serial.rx = s.getD (k + 5) 0 :: s.drop (k + 5 + 1) := by
      rw [hrx]; exact drop_eq_getD_cons s (k + 5) (by omega)
    rw [scan_loop_shift n serial _ ck _ _ hck hrx2]
    have hw : (⟨(windowAt s k).p1, (windowAt s k).p2, (windowAt s k).p3, (windowAt s k).p4,
        s.getD (k + 5) 0⟩ : response_scan_packet_s) = windowAt s (k + 1) := by
      simp [windowAt, Nat.add_assoc]
    rw [hw]
    have hnext := hall (k + 1) (by omega) (by omega)
    rw [ih (k + 1) _ _ (by simp) (by omega) hnext
      (fun j h1 h2 => hall j (by omega) (by omega))]
    have e1 : k + 1 + 5 + n = k + 5 + (n + 1) := by omega
    have e2 : k + 1 + n = k + (n + 1) := by omega
    simp only [e1, e2, List.append_assoc, List.singleton_append, Nat.add_one_ne_zero, if_false]
    by_cases hn : n = 0
    · subst hn; simp
    · simp [hn, List.replicate_succ]

/-- What the loop leaves behind: it adds only single-byte reads to the log, and either it
made no shift and left everything as it was, or (unless a read failed) it left in
`checksum` the value its body computes for the final window. -/
theorem scan_loop_trace :
    ∀ (n : Nat) (serial : Device) (scan : response_scan_packet_s) (ck : Nat),
      ∃ k, (scan_loop n serial scan ck).serial.reads = serial.reads ++ List.replicate k 1 ∧
        k ≤ n ∧
        (k = 0 → scan_loop n serial scan ck = ⟨serial, scan, ck, n, false⟩) ∧
        (0 < k → (scan_loop n serial scan ck).readFailed = false →
          (scan_loop n serial scan ck).checksum
            = loop_checksum (scan_loop n serial scan ck).scan) := by
  intro n
  induction n with
  | zero =>
    intro serial scan ck
    exact ⟨0, by simp [scan_loop], le_refl _, fun _ => rfl, fun h => absurd h (by decide)⟩
  | succ n ih =>
    intro serial scan ck
    by_cases hck : ck = scan.checksum
    · rw [scan_loop_stop _ _ _ _ hck]
      exact ⟨0, by simp, by omega, fun _ => rfl, fun h => absurd h (by decide)⟩
    · cases hrx : serial.rx with
      | nil =>
        rw [scan_loop_starve n serial scan ck hck hrx]
        exact ⟨1, by simp, by omega, fun h => absurd h (by decide), fun _ h => by simp at h⟩
      | cons b rest =>
        rw [scan_loop_shift n serial scan ck b rest hck hrx]
        obtain ⟨k, h1, h2, h3, h4⟩ := ih { serial with rx := rest, reads := serial.reads ++ [1] }
          ⟨scan.p1, scan.p2, scan.p3, scan.p4, b⟩
          (loop_checksum ⟨scan.p1, scan.p2, scan.p3, scan.p4, b⟩)
        refine ⟨k + 1, ?_, by omega, fun h => absurd h (by omega), fun _ hf => ?_⟩
        · rw [h1]; simp [List.replicate_succ]
        · by_cases hk : k = 0
          · rw [h3 hk]
          · exact h4 (by omega) hf

/-- The run of the loop on a stream `s`, started on the window at offset `k` with the
bytes behind it still to come: it makes some `m ≤ n` shifts past refused windows and then
either stops on the window at offset `k + m`, or finds the stream exhausted. -/
theorem scan_loop_run (s : List Byte) :
    ∀ (n k : Nat) (serial : Device) (ck : Nat),
      serial.rx = s.drop (k + 5) → k + 5 ≤ s.length →
      ∃ m, m ≤ n ∧
        (∀ j, k < j → j < k + m →
          loop_checksum (windowAt s j) ≠ (windowAt s j).checksum) ∧
        (0 < m → ck ≠ (windowAt s k).checksum) ∧
        (scan_loop n serial (windowAt s k) ck).count + m = n ∧
        (((scan_loop n serial (windowAt s k) ck).readFailed = false ∧
            k + 5 + m ≤ s.length ∧
            (scan_loop n serial (windowAt s k) ck).scan = windowAt s (k + m) ∧
            (scan_loop n serial (windowAt s k) ck).serial
              = { serial with rx := s.drop (k + 5 + m),
                              reads := serial.reads ++ List.replicate m 1 } ∧
            (scan_loop n serial (windowAt s k) ck).checksum
              = (if m = 0 then ck else loop_checksum (windowAt s (k + m))) ∧
            (m < n → (scan_loop n serial (windowAt s k) ck).checksum
              = (windowAt s (k + m)).checksum)) ∨
          ((scan_loop n serial (windowAt s k) ck).readFailed = true ∧
            k + 5 + m = s.length ∧ m < n ∧
            (scan_loop n serial (windowAt s k) ck).serial
              = { serial with rx := [], reads := serial.reads ++ List.replicate (m + 1) 1 } ∧
            (if m = 0 then ck else loop_checksum (windowAt s (k + m)))
              ≠ (windowAt s (k + m)).checksum)) := by
  intro n
  induction n with
  | zero =>
    intro k serial ck hrx hlen
    refine ⟨0, le_refl _, fun j h1 h2 => absurd h2 (by omega), fun h => absurd h (by decide),
      rfl, Or.inl ⟨rfl, hlen, rfl, ?_, rfl, fun h => absurd h (by decide)⟩⟩
    simp [scan_loop, ← hrx]
  | succ n ih =>
    intro k serial ck hrx hlen
    by_cases hck : ck = (windowAt s k).checksum
    · rw [scan_loop_stop _ _ _ _ hck]
      refine ⟨0, by omega, fun j h1 h2 => absurd h2 (by omega), fun h => absurd h (by decide),
        rfl, Or.inl ⟨rfl, hlen, rfl, ?_, rfl, fun _ => hck⟩⟩
      simp [← hrx]
    · by_cases hmore : k + 5 < s.length
      · have hrx2 : serial.rx = s.getD (k + 5) 0 :: s.drop (k + 5 + 1) := by
          rw [hrx]; exact drop_eq_getD_cons s (k + 5) hmore
        rw [scan_loop_shift n serial _ ck _ _ hck hrx2]
        have hw : (⟨(windowAt s k).p1, (windowAt s k).p2, (windowAt s k).p3,
            (windowAt s k).p4, s.getD (k + 5) 0⟩ : response_scan_packet_s)
              = windowAt s (k + 1) := by
          simp [windowAt, Nat.add_assoc]
        rw [hw]
        obtain ⟨m, hm, hrej, hfirst, hcount, hres⟩ :=
          ih (k + 1) { serial with rx := s.drop (k + 5 + 1), reads := serial.reads ++ [1] }
            (loop_checksum (windowAt s (k + 1))) (by simp) (by omega)
        have e1 : k + 1 + 5 + m = k + 5 + (m + 1) := by omega
        have e2 : k + 1 + m = k + (m + 1) := by omega
        refine ⟨m + 1, by omega, ?_, fun _ => hck, by omega, ?_⟩
        · intro j h1 h2
          by_cases hj : j = k + 1
          · subst hj
            exact hfirst (by omega)
          · exact hrej j (by omega) (by omega)
        · rw [e1, e2] at hres
          rcases hres with ⟨a, b, c, d, e, f⟩ | ⟨a, b, c, d, e⟩
          · refine Or.inl ⟨a, b, c, ?_, ?_, ?_⟩
            · rw [d]; simp [List.replicate_succ]
            · rw [e]
              by_cases hm0 : m = 0
              · subst hm0; simp
              · simp [hm0]
            · intro h; exact f (by omega)
          · refine Or.inr ⟨a, b, by omega, ?_, ?_⟩
            · rw [d]; simp [List.replicate_succ]
            · by_cases hm0 : m = 0
              · subst hm0; simpa using e
              · simpa [hm0] using e
      · have hnil : serial.rx = [] := by
          rw [hrx]; exact List.drop_eq_nil_of_le (by omega)
        rw [scan_loop_starve n serial _ ck hck hnil]
        refine ⟨0, by omega, fun j h1 h2 => absurd h2 (by omega),
          fun h => absurd h (by decide), rfl, Or.inr ⟨rfl, by omega, by omega, ?_, ?_⟩⟩
        · simp
        · simpa using hck

/-- The test of the window after `k` shifts, in terms of the loop's `checksum` variable. -/
theorem window_passes_iff (s : List Byte) (k : Nat) :
    window_passes s k ↔
      (if k = 0 then checksum_response_scan_packet (windowAt s 0)
        else loop_checksum (windowAt s k)) = (windowAt s k).checksum := by
  unfold window_passes
  by_cases hk : k = 0
  · subst hk; simp [checksum_ok]
  · simp [hk]

/-- The run of `read_response_scan` once its first read has been served: it makes some
`m ≤ 100` shifts past windows that fail their test, and then either stops on the window at
offset `m`, succeeding exactly when that window passes its test, or finds the stream
exhausted and reports the read failure. -/
theorem read_response_scan_run (serial : Device) (scan : response_scan_packet_s)
    (h : 5 ≤ serial.rx.length) :
    ∃ m, m ≤ 100 ∧ (∀ j, j < m → ¬ window_passes serial.rx j) ∧
      ((5 + m ≤ serial.rx.length ∧ (m < 100 → window_passes serial.rx m) ∧
          read_response_scan serial scan =
            ⟨{ serial with rx := serial.rx.drop (5 + m),
                           reads := serial.reads ++ 5 :: List.replicate m 1 },
              windowAt serial.rx m,
              if window_passes serial.rx m then none
              else some "invalid scan response commands"⟩) ∨
        (5 + m = serial.rx.length ∧ m < 100 ∧ ¬ window_passes serial.rx m ∧
          (read_response_scan serial scan).serial
            = { serial with rx := [],
                            reads := serial.reads ++ 5 :: List.replicate (m + 1) 1 } ∧
          (read_response_scan serial scan).error
            = some "invalid response scan packet checksum")) := by
  obtain ⟨m, hm, hrej, hfirst, _, hres⟩ := scan_loop_run serial.rx 100 0
    { serial with rx := serial.rx.drop 5, reads := serial.reads ++ [5] }
    (checksum_response_scan_packet (windowAt serial.rx 0)) (by simp) (by omega)
  rw [read_response_scan_eq serial scan h]
  simp only [Nat.zero_add] at hrej hres
  generalize scan_loop 100 { serial with rx := serial.rx.drop 5, reads := serial.reads ++ [5] }
    (windowAt serial.rx 0) (checksum_response_scan_packet (windowAt serial.rx 0)) = st at hres ⊢
  refine ⟨m, hm, ?_, ?_⟩
  · intro j hj
    rw [window_passes_iff]
    by_cases hj0 : j = 0
    · subst hj0; simpa using hfirst (by omega)
    · simpa [hj0] using hrej j (by omega) hj
  · rcases hres with ⟨a, b, c, d, e, f⟩ | ⟨a, b, c, d, e⟩
    · refine Or.inl ⟨b, ?_, ?_⟩
      · intro hlt
        rw [window_passes_iff, ← e]
        exact f hlt
      · have hp : window_passes serial.rx m ↔ st.checksum = (windowAt serial.rx m).checksum := by
          rw [window_passes_iff, ← e]
        by_cases hpass : window_passes serial.rx m
        · have := hp.1 hpass
          simp [a, this, hpass, c, d]
        · have : ¬ st.checksum = (windowAt serial.rx m).checksum := fun h => hpass (hp.2 h)
          simp [a, this, hpass, c, d]
    · refine Or.inr ⟨b, c, ?_, ?_, ?_⟩
      · rw [window_passes_iff]; exact e
      · simp [a, d]
      · simp [a]

/-- A window whose loop checksum is its non-zero transmitted checksum has both sync bits
clear. -/
theorem sync_clear_of_loop_checksum (w : response_scan_packet_s)
    (h : loop_checksum w = w.checksum) (hne : w.checksum ≠ 0) : w.s1 = 0 ∧ w.s2 = 0 := by
  unfold loop_checksum at h
  by_cases h3 : w.p0.val &&& 0x03 = 0x00
  · rw [and_three] at h3
    simp only [response_scan_packet_s.s1, response_scan_packet_s.s2]
    omega
  · rw [if_pos h3] at h
    exact absurd h.symm hne

/-- On a window with both sync bits clear the loop keeps the computed checksum. -/
theorem loop_checksum_of_sync_clear (w : response_scan_packet_s)
    (h1 : w.s1 = 0) (h2 : w.s2 = 0) : loop_checksum w = checksum_response_scan_packet w := by
  have h3 : w.p0.val &&& 0x03 = 0x00 := by
    rw [and_three]
    simp only [response_scan_packet_s.s1, response_scan_packet_s.s2] at h1 h2
    omega
  simp [loop_checksum, h3]

/-- On a window with a sync bit set the loop replaces the computed checksum by zero. -/
theorem loop_checksum_of_sync_set (w : response_scan_packet_s)
    (h : w.s1 = 1 ∨ w.s2 = 1) : loop_checksum w = 0 := by
  have h3 : w.p0.val &&& 0x03 ≠ 0x00 := by
    rw [and_three]
    simp only [response_scan_packet_s.s1, response_scan_packet_s.s2] at h
    omega
  simp [loop_checksum, h3]

/-- The transport after a call of `read_response_scan` whose first read fails. -/
theorem read_response_scan_short_serial (serial : Device) (scan : response_scan_packet_s)
    (h : serial.rx.length < 5) :
    (read_response_scan serial scan).serial
      = { serial with rx := [], reads := serial.reads ++ [5] } := by
  have : ¬ (5 ≤ serial.rx.length) := by omega
  simp [read_response_scan, device_read, response_scan_packet_s.size, this]

/-- The first term of the sum puts the first byte together again. -/
theorem scan_first_term (v : response_scan_packet_s) :
    (v.distance_low <<< 3) + (v.VHL <<< 2) + (v.s2 <<< 1) + v.s1 = v.p0.val := by
  simp only [Nat.shiftLeft_eq, response_scan_packet_s.distance_low, response_scan_packet_s.VHL,
    response_scan_packet_s.s1, response_scan_packet_s.s2]
  omega

/-- The sum of `checksum_response_scan_packet` in terms of the bytes of the record. -/
theorem scan_sum_eq (v : response_scan_packet_s) :
    scan_sum v = v.p0.val + v.p1.val + v.p2.val + v.p3.val + v.p4.val / 16 * 16 := by
  have h2 := v.p2.isLt
  have ha : v.angle &&& 0x00ff = v.p2.val := by
    rw [show (0x00ff : Nat) = 2 ^ 8 - 1 from rfl, Nat.and_pow_two_sub_one_eq_mod]
    simp only [response_scan_packet_s.angle]
    omega
  have hb : v.angle >>> 8 = v.p3.val := by
    rw [Nat.shiftRight_eq_div_pow]
    simp only [response_scan_packet_s.angle]
    omega
  have hc : v.VRECT <<< 4 = v.p4.val / 16 * 16 := by
    rw [Nat.shiftLeft_eq]
    simp only [response_scan_packet_s.VRECT]
  unfold scan_sum
  rw [scan_first_term, ha, hb, hc]
  rfl

/-- The accumulator of `checksum_response_scan_packet` stays far below `2 ^ 64`. -/
theorem scan_sum_le (v : response_scan_packet_s) : scan_sum v ≤ 1260 := by
  have h0 := v.p0.isLt
  have h1 := v.p1.isLt
  have h2 := v.p2.isLt
  have h3 := v.p3.isLt
  have h4 := v.p4.isLt
  rw [scan_sum_eq]
  omega

/-- `checksum_response_scan_packet` is the unwrapped sum reduced mod 15: neither the
64-bit accumulator nor the 8-bit return type changes the value. -/
theorem checksum_response_scan_packet_eq (v : response_scan_packet_s) :
    checksum_response_scan_packet v = scan_sum v % 15 := by
  have hle := scan_sum_le v
  unfold scan_sum at hle
  unfold checksum_response_scan_packet scan_sum
  generalize (v.distance_low <<< 3) + (v.VHL <<< 2) + (v.s2 <<< 1) + v.s1 = a at hle ⊢
  generalize v.distance_high = b at hle ⊢
  generalize v.angle &&& 0x00ff = c at hle ⊢
  generalize v.angle >>> 8 = d at hle ⊢
  generalize v.VRECT <<< 4 = e at hle ⊢
  simp only [Nat.zero_add]
  rw [Nat.mod_eq_of_lt (show a < 2 ^ 64 by omega),
    Nat.mod_eq_of_lt (show a + b < 2 ^ 64 by omega),
    Nat.mod_eq_of_lt (show a + b + c < 2 ^ 64 by omega),
    Nat.mod_eq_of_lt (show a + b + c + d < 2 ^ 64 by omega),
    Nat.mod_eq_of_lt (show a + b + c + d + e < 2 ^ 64 by omega)]
  omega

/-- The checksum comparison on a window holds exactly when the transmitted checksum is the
sum of the formula reduced mod 15. -/
theorem checksum_ok_iff (w : response_scan_packet_s) :
    checksum_ok w ↔ w.checksum = scan_sum w % 15 := by
  unfold checksum_ok
  rw [checksum_response_scan_packet_eq]
  exact eq_comm

/-- The loop's test on a window is the spelled-out acceptance predicate. -/
theorem loop_checksum_eq_iff (w : response_scan_packet_s) :
    loop_checksum w = w.checksum ↔ resync_accepts w := by
  unfold resync_accepts
  by_cases hs : w.s1 = 0 ∧ w.s2 = 0
  · rw [loop_checksum_of_sync_clear w hs.1 hs.2, checksum_response_scan_packet_eq]
    constructor
    · intro h; exact Or.inl ⟨hs.1, hs.2, h.symm⟩
    · rintro (⟨_, _, h⟩ | ⟨h, _⟩)
      · exact h.symm
      · exact absurd hs h
  · have hset : w.s1 = 1 ∨ w.s2 = 1 := by
      simp only [response_scan_packet_s.s1, response_scan_packet_s.s2] at hs ⊢
      omega
    rw [loop_checksum_of_sync_set w hset]
    constructor
    · intro h; exact Or.inr ⟨hs, h.symm⟩
    · rintro (⟨a, b, _⟩ | ⟨_, h⟩)
      · exact absurd ⟨a, b⟩ hs
      · exact h.symm

/-- The bytes a call asked for, when the reads it logged are known. -/
theorem requested_of_reads (d e : Device) (l : List Nat) (h : e.reads = d.reads ++ l) :
    requested d e = l.sum := by
  simp [requested, h]

/-- The shifts a call made, when the reads it logged are known. -/
theorem shifts_of_reads (d e : Device) (l : List Nat) (h : e.reads = d.reads ++ l) :
    shifts d e = l.length - 1 := by
  simp [shifts, h]

theorem sum_replicate_one (k : Nat) : (List.replicate k 1).sum = k := by
  induction k with
  | zero => rfl
  | succ k ih => simp [List.replicate_succ, ih, Nat.add_comm]

/-- A served read never makes `read_response_header` report the I/O failure. -/
theorem read_response_header_served (serial : Device) (cmd : Cmd) (header : response_header_s)
    (h : response_header_s.size ≤ serial.rx.length) :
    (read_response_header serial cmd header).error ≠ some "unable to read response header" := by
  obtain ⟨rx, rd, wr, wf⟩ := serial
  match rx, h with
  | c1 :: c2 :: s1 :: s2 :: sum :: rest, _ =>
    rw [read_response_header_eq _ cmd header c1 c2 s1 s2 sum rest rfl]
    simp only
    split
    · decide
    · split <;> decide

/-- A served read never makes `read_response_param` report the I/O failure. -/
theorem read_response_param_served (serial : Device) (cmd : Cmd) (param : response_param_s)
    (h : response_param_s.size ≤ serial.rx.length) :
    (read_response_param serial cmd param).error
      ≠ some "unable to read response param header" := by
  obtain ⟨rx, rd, wr, wf⟩ := serial
  match rx, h with
  | c1 :: c2 :: s1 :: s2 :: sum :: rest, _ =>
    rw [read_response_param_eq _ cmd param c1 c2 s1 s2 sum rest rfl]
    simp only
    split
    · decide
    · split <;> decide

/-- A served read never makes `read_response_info_motor` report the I/O failure. -/
theorem read_response_info_motor_served (serial : Device) (cmd : Cmd)
    (info : response_info_motor_s) (h : info.toBytes.length ≤ serial.rx.length) :
    (read_response_info_motor serial cmd info).error
      ≠ some "unable to read response motor info" := by
  obtain ⟨rx, rd, wr, wf⟩ := serial
  have hl : info.toBytes.length = info.payload.length + 2 := by
    simp [response_info_motor_s.toBytes]
  rw [hl] at h
  match rx, h with
  | c1 :: c2 :: rest, h =>
    rw [read_response_info_motor_eq _ cmd info c1 c2 rest rfl
      (by simp only [List.length_cons] at h; omega)]
    simp only
    split <;> decide

/-- A served read never makes `read_response_info_sample_rate` report the I/O failure. -/
theorem read_response_info_sample_rate_served (serial : Device) (cmd : Cmd)
    (info : response_info_sample_rate_s) (h : info.toBytes.length ≤ serial.rx.length) :
    (read_response_info_sample_rate serial cmd info).error
      ≠ some "unable to read response sample rate info" := by
  obtain ⟨rx, rd, wr, wf⟩ := serial
  have hl : info.toBytes.length = info.payload.length + 2 := by
    simp [response_info_sample_rate_s.toBytes]
  rw [hl] at h
  match rx, h with
  | c1 :: c2 :: rest, h =>
    rw [read_response_info_sample_rate_eq _ cmd info c1 c2 rest rfl
      (by simp only [List.length_cons] at h; omega)]
    simp only
    split <;> decide

/-- The transport cannot deliver a whole header. -/
theorem read_response_header_short (serial : Device) (cmd : Cmd) (header : response_header_s)
    (hrx : serial.rx.length < response_header_s.size) :
    (read_response_header serial cmd header).error = some "unable to read response header" := by
  have : ¬ (5 ≤ serial.rx.length) := by simpa [response_header_s.size] using hrx
  simp [read_response_header, device_read, response_header_s.size, this]

/-- The transport cannot deliver a whole param response. -/
theorem read_response_param_short (serial : Device) (cmd : Cmd) (param : response_param_s)
    (hrx : serial.rx.length < response_param_s.size) :
    (read_response_param serial cmd param).error
      = some "unable to read response param header" := by
  have : ¬ (5 ≤ serial.rx.length) := by simpa [response_param_s.size] using hrx
  simp [read_response_param, device_read, response_param_s.size, this]

/-- `read_response_scan` when the first window passes the checksum comparison. -/
theorem read_response_scan_first_window (serial : Device) (scan : response_scan_packet_s)
    (h : 5 ≤ serial.rx.length) (hok : checksum_ok (windowAt serial.rx 0)) :
    read_response_scan serial scan =
      ⟨{ serial with rx := serial.rx.drop 5, reads := serial.reads ++ [5] },
        windowAt serial.rx 0, none⟩ := by
  rw [read_response_scan_eq serial scan h]
  simp only
  rw [scan_loop_stop 100 _ _ _ hok]
  have : checksum_response_scan_packet (windowAt serial.rx 0)
      = (windowAt serial.rx 0).checksum := hok
  simp [this]

/-- The status checksum as a byte. -/
theorem status_checksum_byte (s1 s2 : Byte) :
    (Fin.ofNat (((s1.val + s2.val) &&& 0x3F) + 0x30) : Byte).val
      = ((s1.val + s2.val) &&& 0x3F) + 0x30 := by
  have h : (s1.val + s2.val) &&& 0x3F ≤ 0x3F := Nat.and_le_right
  show (((s1.val + s2.val) &&& 0x3F) + 0x30) % 256 = _
  omega


/-! ## The claims -/

/-- C1 (the code departs from the claim): on the stream `00 01 00 00 00 00 00` the first
window `00 01 00 00 00` fails the checksum comparison, and after one shift
`read_response_scan` returns the window `01 00 00 00 00` as a success although its computed
checksum is 1 and its transmitted checksum is 0. -/
theorem read_response_scan_returns_checksum_mismatch :
    read_response_scan ⟨[0, 1, 0, 0, 0, 0, 0], [], [], false⟩ ⟨0, 0, 0, 0, 0⟩
        = ⟨⟨[0], [5, 1], [], false⟩, ⟨1, 0, 0, 0, 0⟩, none⟩ ∧
      checksum_response_scan_packet ⟨1, 0, 0, 0, 0⟩ = 1 ∧
      response_scan_packet_s.checksum ⟨1, 0, 0, 0, 0⟩ = 0 := by
  decide

/-- C2 (counterexample): records with wrong sync bits are returned as successes. The
window `02 0D 00 00 33` (`s2 = 1`) is accepted as the first window, and the window
`08 07 00 00 33` (`s1 = 0`) is accepted after one shift; both have a matching checksum. -/
theorem read_response_scan_returns_wrong_sync :
    ((read_response_scan ⟨[2, 13, 0, 0, 0x33], [], [], false⟩ ⟨0, 0, 0, 0, 0⟩).error = none ∧
      (read_response_scan ⟨[2, 13, 0, 0, 0x33], [], [], false⟩ ⟨0, 0, 0, 0, 0⟩).out
        = ⟨2, 13, 0, 0, 0x33⟩ ∧
      response_scan_packet_s.s2 ⟨2, 13, 0, 0, 0x33⟩ = 1 ∧
      checksum_ok ⟨2, 13, 0, 0, 0x33⟩) ∧
    ((read_response_scan ⟨[1, 8, 7, 0, 0, 0x33], [], [], false⟩ ⟨0, 0, 0, 0, 0⟩).error = none ∧
      (read_response_scan ⟨[1, 8, 7, 0, 0, 0x33], [], [], false⟩ ⟨0, 0, 0, 0, 0⟩).out
        = ⟨8, 7, 0, 0, 0x33⟩ ∧
      shifts ⟨[1, 8, 7, 0, 0, 0x33], [], [], false⟩
        (read_response_scan ⟨[1, 8, 7, 0, 0, 0x33], [], [], false⟩ ⟨0, 0, 0, 0, 0⟩).serial = 1 ∧
      response_scan_packet_s.s1 ⟨8, 7, 0, 0, 0x33⟩ = 0 ∧
      checksum_ok ⟨8, 7, 0, 0, 0x33⟩) := by
  decide

/-- C2 (amended): for every byte stream, a record that `read_response_scan` returns as a
success from a window reached by shifting, and whose transmitted checksum is not zero, has
both sync bits clear (`s1 = 0` and `s2 = 0`): no record with `s1 = 1` or `s2 = 1` and a
non-zero transmitted checksum is returned after a shift. -/
theorem read_response_scan_shifted_sync_clear (serial : Device) (scan : response_scan_packet_s)
    (hok : (read_response_scan serial scan).error = none)
    (hshift : 0 < shifts serial (read_response_scan serial scan).serial)
    (hck : (read_response_scan serial scan).out.checksum ≠ 0) :
    (read_response_scan serial scan).out.s1 = 0 ∧ (read_response_scan serial scan).out.s2 = 0 := by
  by_cases hlen : 5 ≤ serial.rx.length
  · rw [read_response_scan_eq serial scan hlen] at hok hshift hck ⊢
    obtain ⟨k, h1, _, h3, h4⟩ := scan_loop_trace 100
      { serial with rx := serial.rx.drop 5, reads := serial.reads ++ [5] }
      (windowAt serial.rx 0) (checksum_response_scan_packet (windowAt serial.rx 0))
    generalize scan_loop 100 { serial with rx := serial.rx.drop 5, reads := serial.reads ++ [5] }
      (windowAt serial.rx 0) (checksum_response_scan_packet (windowAt serial.rx 0)) = st
      at hok hshift hck h1 h3 h4 ⊢
    simp only at hok hshift hck h1 h3 h4 ⊢
    by_cases hf : st.readFailed = true
    · simp [hf] at hok
    · by_cases hm : st.checksum = st.scan.checksum
      · simp only [hf, hm] at hok hshift hck ⊢
        simp only [Bool.false_eq_true, if_false, ne_eq, not_true_eq_false] at hok hshift hck ⊢
        have hk : 0 < k := by
          simp [shifts, h1] at hshift
          exact hshift
        have hl := h4 hk (by simpa using hf)
        exact sync_clear_of_loop_checksum st.scan (hl ▸ hm) hck
      · simp [hf, hm] at hok
  · rw [read_response_scan_short serial scan (by omega)] at hok
    simp at hok

/-- Witness of `read_response_scan_shifted_sync_clear`: the stream `03 10 0E 00 00 22`. -/
theorem read_response_scan_shifted_sync_clear_witness :
    (read_response_scan ⟨[3, 16, 14, 0, 0, 0x22], [], [], false⟩ ⟨0, 0, 0, 0, 0⟩).error = none ∧
    0 < shifts ⟨[3, 16, 14, 0, 0, 0x22], [], [], false⟩
      (read_response_scan ⟨[3, 16, 14, 0, 0, 0x22], [], [], false⟩ ⟨0, 0, 0, 0, 0⟩).serial ∧
    (read_response_scan ⟨[3, 16, 14, 0, 0, 0x22], [], [], false⟩ ⟨0, 0, 0, 0, 0⟩).out.checksum ≠ 0 ∧
    (read_response_scan ⟨[3, 16, 14, 0, 0, 0x22], [], [], false⟩ ⟨0, 0, 0, 0, 0⟩).out.s1 = 0 ∧
    (read_response_scan ⟨[3, 16, 14, 0, 0, 0x22], [], [], false⟩ ⟨0, 0, 0, 0, 0⟩).out.s2 = 0 :=
  ⟨by decide, by decide, by decide,
    read_response_scan_shifted_sync_clear ⟨[3, 16, 14, 0, 0, 0x22], [], [], false⟩ ⟨0, 0, 0, 0, 0⟩
      (by decide) (by decide) (by decide)⟩

/-- C3 (counterexample). With `r = 01 0E 00 00 11`, a valid record in the sense of the
claim (its transmitted checksum 1 is the sum 31 of the formula reduced mod 15, `s1 = 1`,
`s2 = 0`): on the stream `01`, `r`, `00` the decoder does not stop on `r` after one shift,
it makes a second shift, consumes the byte after `r` and returns the window
`0E 00 00 11 00`; and on the stream `00`, `r` it accepts the first window `00 01 0E 00 00`
with no shift at all, leaving the last byte of `r` unread. -/
theorem read_response_scan_garbage_then_record_missed :
    spec_valid ⟨1, 14, 0, 0, 0x11⟩ ∧
    (scan_sum ⟨1, 14, 0, 0, 0x11⟩ = 31 ∧
      response_scan_packet_s.checksum ⟨1, 14, 0, 0, 0x11⟩ = scan_sum ⟨1, 14, 0, 0, 0x11⟩ % 15 ∧
      response_scan_packet_s.s1 ⟨1, 14, 0, 0, 0x11⟩ = 1 ∧
      response_scan_packet_s.s2 ⟨1, 14, 0, 0, 0x11⟩ = 0) ∧
    read_response_scan ⟨[1, 1, 14, 0, 0, 0x11, 0], [], [], false⟩ ⟨0, 0, 0, 0, 0⟩
      = ⟨⟨[], [5, 1, 1], [], false⟩, ⟨14, 0, 0, 0x11, 0⟩, none⟩ ∧
    read_response_scan ⟨[0, 1, 14, 0, 0, 0x11], [], [], false⟩ ⟨0, 0, 0, 0, 0⟩
      = ⟨⟨[0x11], [5], [], false⟩, ⟨0, 1, 14, 0, 0⟩, none⟩ := by
  decide

/-- C3 (amended): for every scan record `r` whose transmitted checksum equals the mod-15
formula `(((distance_low<<3)+(VHL<<2)+(s2<<1)+s1) + distance_high + (angle&0xFF) +
(angle>>8) + (VRECT<<4)) mod 15` and whose sync bits are both clear (`s1 = 0`, `s2 = 0`),
and every byte `g` such that on the first window (`g` followed by the first four bytes of
`r`) the transmitted checksum differs from that formula, when the transport delivers `g`
followed by the bytes of `r`, `read_response_scan` succeeds after exactly one shift,
returns exactly `r`, and has consumed exactly `record_length + 1` bytes (the byte `g` and
the record, nothing after it). -/
theorem read_response_scan_resync_one_shift (serial : Device) (scan r : response_scan_packet_s)
    (g : Byte) (rest : List Byte)
    (hrx : serial.rx = g :: r.p0 :: r.p1 :: r.p2 :: r.p3 :: r.p4 :: rest)
    (hr : r.checksum = scan_sum r % 15) (hs1 : r.s1 = 0) (hs2 : r.s2 = 0)
    (hg : response_scan_packet_s.checksum ⟨g, r.p0, r.p1, r.p2, r.p3⟩
      ≠ scan_sum ⟨g, r.p0, r.p1, r.p2, r.p3⟩ % 15) :
    (read_response_scan serial scan).error = none ∧
    (read_response_scan serial scan).out = r ∧
    shifts serial (read_response_scan serial scan).serial = 1 ∧
    (read_response_scan serial scan).serial.rx = rest ∧
    (read_response_scan serial scan).serial.reads
      = serial.reads ++ [response_scan_packet_s.size, 1] := by
  have hlen : 5 ≤ serial.rx.length := by simp [hrx]
  have hw : windowAt serial.rx 0 = ⟨g, r.p0, r.p1, r.p2, r.p3⟩ := by simp [windowAt, hrx]
  have hd : serial.rx.drop 5 = r.p4 :: rest := by simp [hrx]
  have hloop : loop_checksum r = r.checksum := by
    rw [loop_checksum_of_sync_clear r hs1 hs2]; exact (checksum_ok_iff r).2 hr
  have hfirst : checksum_response_scan_packet ⟨g, r.p0, r.p1, r.p2, r.p3⟩
      ≠ response_scan_packet_s.checksum ⟨g, r.p0, r.p1, r.p2, r.p3⟩ :=
    fun h => hg ((checksum_ok_iff _).1 h)
  rw [read_response_scan_eq serial scan hlen, hw, hd]
  simp only
  rw [scan_loop_shift 99 _ _ _ r.p4 rest hfirst rfl]
  rw [scan_loop_stop 99 _ _ _ hloop]
  simp [shifts, hloop, response_scan_packet_s.size]

theorem read_response_scan_resync_one_shift_witness :
    (scan_sum ⟨8, 7, 0, 0, 0x33⟩ = 63 ∧
      response_scan_packet_s.checksum ⟨8, 7, 0, 0, 0x33⟩ = scan_sum ⟨8, 7, 0, 0, 0x33⟩ % 15) ∧
    response_scan_packet_s.s1 ⟨8, 7, 0, 0, 0x33⟩ = 0 ∧
    response_scan_packet_s.s2 ⟨8, 7, 0, 0, 0x33⟩ = 0 ∧
    response_scan_packet_s.checksum ⟨1, 8, 7, 0, 0⟩ ≠ scan_sum ⟨1, 8, 7, 0, 0⟩ % 15 ∧
    (read_response_scan ⟨[1, 8, 7, 0, 0, 0x33, 9], [], [], false⟩ ⟨0, 0, 0, 0, 0⟩).error = none ∧
    (read_response_scan ⟨[1, 8, 7, 0, 0, 0x33, 9], [], [], false⟩ ⟨0, 0, 0, 0, 0⟩).out
      = ⟨8, 7, 0, 0, 0x33⟩ ∧
    shifts ⟨[1, 8, 7, 0, 0, 0x33, 9], [], [], false⟩
      (read_response_scan ⟨[1, 8, 7, 0, 0, 0x33, 9], [], [], false⟩ ⟨0, 0, 0, 0, 0⟩).serial = 1 ∧
    (read_response_scan ⟨[1, 8, 7, 0, 0, 0x33, 9], [], [], false⟩ ⟨0, 0, 0, 0, 0⟩).serial.rx = [9] ∧
    (read_response_scan ⟨[1, 8, 7, 0, 0, 0x33, 9], [], [], false⟩ ⟨0, 0, 0, 0, 0⟩).serial.reads
      = [] ++ [response_scan_packet_s.size, 1] :=
  ⟨by decide, by decide, by decide, by decide,
    read_response_scan_resync_one_shift ⟨[1, 8, 7, 0, 0, 0x33, 9], [], [], false⟩ ⟨0, 0, 0, 0, 0⟩
      ⟨8, 7, 0, 0, 0x33⟩ 1 [9] rfl (by decide) (by decide) (by decide) (by decide)⟩

set_option maxRecDepth 100000 in
/-- C4 (counterexample): on a stream of 105 zero bytes every read can be served and none
of the windows at offsets 0..100 is a valid record in the sense of the claim (`s1` is 0
in all of them), yet `read_response_scan` does not fail: it accepts the first window
and has consumed 5 bytes, not 105. -/
theorem read_response_scan_no_valid_window_accepted :
    (∀ k, k ≤ 100 → ¬ spec_valid (windowAt (List.replicate 105 0) k)) ∧
    (read_response_scan ⟨List.replicate 105 0, [], [], false⟩ ⟨0, 0, 0, 0, 0⟩).error = none ∧
    (read_response_scan ⟨List.replicate 105 0, [], [], false⟩ ⟨0, 0, 0, 0, 0⟩).serial.rx
      = List.replicate 100 0 := by
  decide

/-- C4 (amended): for every byte stream that holds at least `record_length + 100` bytes,
in which the window at offset 0 fails the checksum comparison and every window at offsets
1..100 either has both sync bits clear and fails the checksum comparison, or has a sync
bit set and a non-zero transmitted checksum, `read_response_scan` fails with "invalid scan
response commands" and has consumed exactly `record_length + 100` bytes: one full-window
read followed by 100 single-byte reads. -/
theorem read_response_scan_bound_exhausted (serial : Device) (scan : response_scan_packet_s)
    (hlen : response_scan_packet_s.size + 100 ≤ serial.rx.length)
    (h0 : ¬ checksum_ok (windowAt serial.rx 0))
    (hall : ∀ k, k ≤ 100 → 1 ≤ k →
      ((windowAt serial.rx k).s1 = 0 ∧ (windowAt serial.rx k).s2 = 0 ∧
          ¬ checksum_ok (windowAt serial.rx k)) ∨
      (((windowAt serial.rx k).s1 = 1 ∨ (windowAt serial.rx k).s2 = 1) ∧
          (windowAt serial.rx k).checksum ≠ 0)) :
    (read_response_scan serial scan).error = some "invalid scan response commands" ∧
    (read_response_scan serial scan).serial.rx
      = serial.rx.drop (response_scan_packet_s.size + 100) ∧
    (read_response_scan serial scan).serial.reads
      = serial.reads ++ response_scan_packet_s.size :: List.replicate 100 1 := by
  simp only [response_scan_packet_s.size] at hlen ⊢
  have hrej : ∀ j, 0 < j → j ≤ 0 + 100 →
      loop_checksum (windowAt serial.rx j) ≠ (windowAt serial.rx j).checksum := by
    intro j hj1 hj2
    rcases hall j (by omega) (by omega) with ⟨a, b, c⟩ | ⟨a, b⟩
    · rw [loop_checksum_of_sync_clear _ a b]; exact c
    · rw [loop_checksum_of_sync_set _ a]; exact fun h => b h.symm
  have hex := scan_loop_exhaust serial.rx 100 0
    { serial with rx := serial.rx.drop 5, reads := serial.reads ++ [5] }
    (checksum_response_scan_packet (windowAt serial.rx 0)) (by simp) (by omega) h0 hrej
  rw [read_response_scan_eq serial scan (by omega), hex]
  have hlast := hrej 100 (by omega) (by omega)
  simp [hlast]

set_option maxRecDepth 100000 in
theorem read_response_scan_bound_exhausted_witness :
    (read_response_scan ⟨List.replicate 105 1, [], [], false⟩ ⟨0, 0, 0, 0, 0⟩).error
      = some "invalid scan response commands" ∧
    (read_response_scan ⟨List.replicate 105 1, [], [], false⟩ ⟨0, 0, 0, 0, 0⟩).serial.rx
      = (List.replicate 105 1).drop (response_scan_packet_s.size + 100) ∧
    (read_response_scan ⟨List.replicate 105 1, [], [], false⟩ ⟨0, 0, 0, 0, 0⟩).serial.reads
      = [] ++ response_scan_packet_s.size :: List.replicate 100 1 :=
  read_response_scan_bound_exhausted ⟨List.replicate 105 1, [], [], false⟩ ⟨0, 0, 0, 0, 0⟩
    (by decide) (by decide) (by decide)

/-- C5: when the transport delivers the five bytes of a response, `read_response_header`
(and likewise `read_response_param`) succeeds if and only if the transmitted checksum byte
equals `((cmdStatusByte1 + cmdStatusByte2) & 0x3F) + 0x30` and the two cmd-echo bytes equal
`cmd[0]`, `cmd[1]`; the header it hands back is exactly the bytes received, and just those
bytes are consumed; and on every transport (`other`), whatever the outcome, it makes
exactly one transport read, of the packet's fixed size. -/
theorem read_response_header_param_success_iff (serial other : Device) (cmd : Cmd)
    (header : response_header_s) (param : response_param_s)
    (c1 c2 s1 s2 sum : Byte) (rest : List Byte)
    (hrx : serial.rx = c1 :: c2 :: s1 :: s2 :: sum :: rest) :
    (((read_response_header serial cmd header).error = none ↔
        sum.val = ((s1.val + s2.val) &&& 0x3F) + 0x30 ∧ c1 = cmd.b0 ∧ c2 = cmd.b1) ∧
      (read_response_header serial cmd header).out.toBytes = [c1, c2, s1, s2, sum] ∧
      (read_response_header serial cmd header).serial.rx = rest ∧
      (read_response_header other cmd header).serial.reads
        = other.reads ++ [response_header_s.size]) ∧
    (((read_response_param serial cmd param).error = none ↔
        sum.val = ((s1.val + s2.val) &&& 0x3F) + 0x30 ∧ c1 = cmd.b0 ∧ c2 = cmd.b1) ∧
      (read_response_param serial cmd param).out.toBytes = [c1, c2, s1, s2, sum] ∧
      (read_response_param serial cmd param).serial.rx = rest ∧
      (read_response_param other cmd param).serial.reads
        = other.reads ++ [response_param_s.size]) := by
  rw [read_response_header_eq serial cmd header c1 c2 s1 s2 sum rest hrx,
    read_response_param_eq serial cmd param c1 c2 s1 s2 sum rest hrx]
  refine ⟨⟨?_, rfl, rfl, read_response_header_reads other cmd header⟩,
    ⟨?_, rfl, rfl, read_response_param_reads other cmd param⟩⟩ <;>
  · by_cases h1 : ((s1.val + s2.val) &&& 0x3F) + 0x30 = sum.val
    · by_cases h2 : c1 = cmd.b0 <;> by_cases h3 : c2 = cmd.b1 <;> simp [h1, h2, h3]
    · have h1r : ¬ (sum.val = ((s1.val + s2.val) &&& 0x3F) + 0x30) := fun h => h1 h.symm
      simp [h1, h1r]

theorem read_response_header_param_success_iff_witness :
    (((read_response_header ⟨[68, 83, 1, 2, 0x33, 7], [], [], false⟩ DATA_ACQUISITION_START
          ⟨0, 0, 0, 0, 0⟩).error = none ↔
        (0x33 : Byte).val = (((1 : Byte).val + (2 : Byte).val) &&& 0x3F) + 0x30 ∧
          (68 : Byte) = DATA_ACQUISITION_START.b0 ∧ (83 : Byte) = DATA_ACQUISITION_START.b1) ∧
      (read_response_header ⟨[68, 83, 1, 2, 0x33, 7], [], [], false⟩ DATA_ACQUISITION_START
          ⟨0, 0, 0, 0, 0⟩).out.toBytes = [68, 83, 1, 2, 0x33] ∧
      (read_response_header ⟨[68, 83, 1, 2, 0x33, 7], [], [], false⟩ DATA_ACQUISITION_START
          ⟨0, 0, 0, 0, 0⟩).serial.rx = [7] ∧
      (read_response_header ⟨[68, 83], [], [], false⟩ DATA_ACQUISITION_START
          ⟨0, 0, 0, 0, 0⟩).serial.reads = [] ++ [response_header_s.size]) ∧
    (((read_response_param ⟨[68, 83, 1, 2, 0x33, 7], [], [], false⟩ DATA_ACQUISITION_START
          ⟨0, 0, 0, 0, 0⟩).error = none ↔
        (0x33 : Byte).val = (((1 : Byte).val + (2 : Byte).val) &&& 0x3F) + 0x30 ∧
          (68 : Byte) = DATA_ACQUISITION_START.b0 ∧ (83 : Byte) = DATA_ACQUISITION_START.b1) ∧
      (read_response_param ⟨[68, 83, 1, 2, 0x33, 7], [], [], false⟩ DATA_ACQUISITION_START
          ⟨0, 0, 0, 0, 0⟩).out.toBytes = [68, 83, 1, 2, 0x33] ∧
      (read_response_param ⟨[68, 83, 1, 2, 0x33, 7], [], [], false⟩ DATA_ACQUISITION_START
          ⟨0, 0, 0, 0, 0⟩).serial.rx = [7] ∧
      (read_response_param ⟨[68, 83], [], [], false⟩ DATA_ACQUISITION_START
          ⟨0, 0, 0, 0, 0⟩).serial.reads = [] ++ [response_param_s.size]) :=
  read_response_header_param_success_iff ⟨[68, 83, 1, 2, 0x33, 7], [], [], false⟩ ⟨[68, 83], [], [], false⟩
    DATA_ACQUISITION_START ⟨0, 0, 0, 0, 0⟩ ⟨0, 0, 0, 0, 0⟩ 68 83 1 2 0x33 [7] rfl

/-- C6: when the transport delivers a response whose checksum byte is valid but whose
cmd-echo differs from the expected command in at least one byte, `read_response_header`
fails with "invalid header response commands"; when the checksum byte is invalid it
fails with "invalid response header checksum", whether or not the cmd-echo matches. The
same holds for `read_response_param` with "invalid param response commands" and "invalid
response param header checksum". -/
theorem read_response_header_param_check_order (serial : Device) (cmd : Cmd)
    (header : response_header_s) (param : response_param_s)
    (c1 c2 s1 s2 sum : Byte) (rest : List Byte)
    (hrx : serial.rx = c1 :: c2 :: s1 :: s2 :: sum :: rest) :
    (sum.val = ((s1.val + s2.val) &&& 0x3F) + 0x30 → (c1 ≠ cmd.b0 ∨ c2 ≠ cmd.b1) →
      (read_response_header serial cmd header).error = some "invalid header response commands" ∧
      (read_response_param serial cmd param).error = some "invalid param response commands") ∧
    (sum.val ≠ ((s1.val + s2.val) &&& 0x3F) + 0x30 →
      (read_response_header serial cmd header).error = some "invalid response header checksum" ∧
      (read_response_param serial cmd param).error
        = some "invalid response param header checksum") := by
  rw [read_response_header_eq serial cmd header c1 c2 s1 s2 sum rest hrx,
    read_response_param_eq serial cmd param c1 c2 s1 s2 sum rest hrx]
  constructor
  · intro hsum hecho
    have hne : ¬ (c1 = cmd.b0 ∧ c2 = cmd.b1) := by
      rintro ⟨a, b⟩
      rcases hecho with h | h
      · exact h a
      · exact h b
    simp [hsum, hne]
  · intro hsum
    have hne : ¬ (((s1.val + s2.val) &&& 0x3F) + 0x30 = sum.val) := fun h => hsum h.symm
    simp [hne]

theorem read_response_header_param_check_order_witness :
    ((read_response_header ⟨[68, 88, 1, 2, 0x33], [], [], false⟩ DATA_ACQUISITION_START
        ⟨0, 0, 0, 0, 0⟩).error = some "invalid header response commands" ∧
      (read_response_param ⟨[68, 88, 1, 2, 0x33], [], [], false⟩ DATA_ACQUISITION_START
        ⟨0, 0, 0, 0, 0⟩).error = some "invalid param response commands") ∧
    ((read_response_header ⟨[68, 88, 1, 2, 0x34], [], [], false⟩ DATA_ACQUISITION_START
        ⟨0, 0, 0, 0, 0⟩).error = some "invalid response header checksum" ∧
      (read_response_param ⟨[68, 88, 1, 2, 0x34], [], [], false⟩ DATA_ACQUISITION_START
        ⟨0, 0, 0, 0, 0⟩).error = some "invalid response param header checksum") :=
  ⟨(read_response_header_param_check_order ⟨[68, 88, 1, 2, 0x33], [], [], false⟩
      DATA_ACQUISITION_START ⟨0, 0, 0, 0, 0⟩ ⟨0, 0, 0, 0, 0⟩ 68 88 1 2 0x33 [] rfl).1
      (by decide) (by decide),
    (read_response_header_param_check_order ⟨[68, 88, 1, 2, 0x34], [], [], false⟩
      DATA_ACQUISITION_START ⟨0, 0, 0, 0, 0⟩ ⟨0, 0, 0, 0, 0⟩ 68 88 1 2 0x34 [] rfl).2
      (by decide)⟩

/-- C7: take a header response whose checksum byte `sum` satisfies
`sum = ((status1 + status2) & 0x3F) + 0x30` and replace that byte by any different value
`x`: `read_response_header` fails with "invalid response header checksum", for every
choice of cmd-echo bytes and expected command. -/
theorem read_response_header_flipped_checksum (serial : Device) (cmd : Cmd)
    (header : response_header_s) (c1 c2 s1 s2 sum x : Byte) (rest : List Byte)
    (hsum : sum.val = ((s1.val + s2.val) &&& 0x3F) + 0x30) (hx : x ≠ sum)
    (hrx : serial.rx = c1 :: c2 :: s1 :: s2 :: x :: rest) :
    (read_response_header serial cmd header).error = some "invalid response header checksum" := by
  rw [read_response_header_eq serial cmd header c1 c2 s1 s2 x rest hrx]
  have hne : ¬ (((s1.val + s2.val) &&& 0x3F) + 0x30 = x.val) := by
    intro h
    exact hx (Fin.ext (by omega))
  simp [hne]

theorem read_response_header_flipped_checksum_witness :
    (read_response_header ⟨[68, 83, 1, 2, 0x32], [], [], false⟩ DATA_ACQUISITION_START
      ⟨0, 0, 0, 0, 0⟩).error = some "invalid response header checksum" :=
  read_response_header_flipped_checksum ⟨[68, 83, 1, 2, 0x32], [], [], false⟩
    DATA_ACQUISITION_START ⟨0, 0, 0, 0, 0⟩ 68 83 1 2 0x33 0x32 [] (by decide) (by decide) rfl

/-- C8: `write_command` with `DATA_ACQUISITION_START` hands the transport the command
bytes 'D', 'S' (followed by the terminator), and for every pair of status bytes, when the
transport then delivers the response cmd-echo 'D', 'S', those status bytes and the checksum
`((status1 + status2) & 0x3F) + 0x30`, `read_response_header` called with
`DATA_ACQUISITION_START` succeeds and returns the two status bytes unmodified. -/
theorem data_acquisition_start_round_trip (serial : Device) (header : response_header_s)
    (s1 s2 : Byte) (rest : List Byte)
    (hrx : serial.rx = ascii 'D' :: ascii 'S' :: s1 :: s2 ::
      Fin.ofNat (((s1.val + s2.val) &&& 0x3F) + 0x30) :: rest) :
    (write_command serial DATA_ACQUISITION_START).1.writes
      = serial.writes ++ [[ascii 'D', ascii 'S', ascii '\n']] ∧
    (read_response_header (write_command serial DATA_ACQUISITION_START).1
      DATA_ACQUISITION_START header).error = none ∧
    (read_response_header (write_command serial DATA_ACQUISITION_START).1
      DATA_ACQUISITION_START header).out.cmdStatusByte1 = s1 ∧
    (read_response_header (write_command serial DATA_ACQUISITION_START).1
      DATA_ACQUISITION_START header).out.cmdStatusByte2 = s2 := by
  have hw : (write_command serial DATA_ACQUISITION_START).1
      = { serial with writes := serial.writes ++ [[ascii 'D', ascii 'S', ascii '\n']] } := by
    cases hf : serial.writeFails <;>
    simp [write_command, device_write, cmd_packet_s.toBytes, DATA_ACQUISITION_START, hf]
  have hr := read_response_header_eq
    { serial with writes := serial.writes ++ [[ascii 'D', ascii 'S', ascii '\n']] }
    DATA_ACQUISITION_START header _ _ s1 s2 _ rest hrx
  rw [hw, hr]
  simp [status_checksum_byte, DATA_ACQUISITION_START]

theorem data_acquisition_start_round_trip_witness :
    (write_command ⟨[68, 83, 1, 2, 0x33], [], [], false⟩ DATA_ACQUISITION_START).1.writes
      = [] ++ [[ascii 'D', ascii 'S', ascii '\n']] ∧
    (read_response_header (write_command ⟨[68, 83, 1, 2, 0x33], [], [], false⟩
      DATA_ACQUISITION_START).1 DATA_ACQUISITION_START ⟨0, 0, 0, 0, 0⟩).error = none ∧
    (read_response_header (write_command ⟨[68, 83, 1, 2, 0x33], [], [], false⟩
      DATA_ACQUISITION_START).1 DATA_ACQUISITION_START ⟨0, 0, 0, 0, 0⟩).out.cmdStatusByte1 = 1 ∧
    (read_response_header (write_command ⟨[68, 83, 1, 2, 0x33], [], [], false⟩
      DATA_ACQUISITION_START).1 DATA_ACQUISITION_START ⟨0, 0, 0, 0, 0⟩).out.cmdStatusByte2 = 2 :=
  data_acquisition_start_round_trip ⟨[68, 83, 1, 2, 0x33], [], [], false⟩ ⟨0, 0, 0, 0, 0⟩
    1 2 [] (by decide)

/-- C9: for every command code `c` and argument `a`, `write_command` hands the transport,
in a single write, exactly the 3 bytes `[c0, c1, 0x0A]`, and
`write_command_with_arguments` hands it, in a single write, exactly the 5 bytes
`[c0, c1, a0, a1, 0x0A]`; nothing is read and no byte is consumed. -/
theorem write_command_bytes (serial : Device) (c a : Cmd) :
    (write_command serial c).1
      = { serial with writes := serial.writes ++ [[c.b0, c.b1, 0x0A]] } ∧
    (write_command_with_arguments serial c a).1
      = { serial with writes := serial.writes ++ [[c.b0, c.b1, a.b0, a.b1, 0x0A]] } := by
  have hnl : ascii '\n' = 0x0A := by decide
  constructor <;> cases hf : serial.writeFails <;>
  simp [write_command, write_command_with_arguments, device_write, cmd_packet_s.toBytes,
    cmd_param_packet_s.toBytes, hf, hnl]

/-- C10: when the transport delivers a motor-info (resp. sample-rate-info) response,
`read_response_info_motor` (resp. `read_response_info_sample_rate`) succeeds if and only
if the two cmd-echo bytes equal `cmd`, whatever the payload bytes are; on a cmd-echo
mismatch it fails with "invalid motor info response commands" (resp. "invalid sample rate
info response commands"); and when the transport (`dead`) cannot deliver the response it
fails with "unable to read response motor info" (resp. "unable to read response sample rate
info"). -/
theorem read_response_info_echo_only (serial dead : Device) (cmd : Cmd)
    (motor : response_info_motor_s) (rate : response_info_sample_rate_s)
    (c1 c2 : Byte) (rest : List Byte)
    (hrx : serial.rx = c1 :: c2 :: rest)
    (hm : motor.payload.length ≤ rest.length) (hr : rate.payload.length ≤ rest.length)
    (hdm : dead.rx.length < motor.toBytes.length)
    (hdr : dead.rx.length < rate.toBytes.length) :
    (((read_response_info_motor serial cmd motor).error = none ↔ c1 = cmd.b0 ∧ c2 = cmd.b1) ∧
      (¬ (c1 = cmd.b0 ∧ c2 = cmd.b1) → (read_response_info_motor serial cmd motor).error
        = some "invalid motor info response commands") ∧
      (read_response_info_motor dead cmd motor).error
        = some "unable to read response motor info") ∧
    (((read_response_info_sample_rate serial cmd rate).error = none ↔
        c1 = cmd.b0 ∧ c2 = cmd.b1) ∧
      (¬ (c1 = cmd.b0 ∧ c2 = cmd.b1) → (read_response_info_sample_rate serial cmd rate).error
        = some "invalid sample rate info response commands") ∧
      (read_response_info_sample_rate dead cmd rate).error
        = some "unable to read response sample rate info") := by
  rw [read_response_info_motor_eq serial cmd motor c1 c2 rest hrx hm,
    read_response_info_sample_rate_eq serial cmd rate c1 c2 rest hrx hr]
  have hdm2 : dead.rx.length < motor.payload.length + 2 := by
    simpa [response_info_motor_s.toBytes] using hdm
  have hdr2 : dead.rx.length < rate.payload.length + 2 := by
    simpa [response_info_sample_rate_s.toBytes] using hdr
  refine ⟨⟨?_, ?_, read_response_info_motor_short dead cmd motor hdm2⟩,
    ⟨?_, ?_, read_response_info_sample_rate_short dead cmd rate hdr2⟩⟩ <;>
  · by_cases h : c1 = cmd.b0 ∧ c2 = cmd.b1 <;> simp [h]

theorem read_response_info_echo_only_witness :
    (((read_response_info_motor ⟨[77, 73, 48, 53, 10], [], [], false⟩ MOTOR_INFORMATION
          ⟨0, 0, [0, 0, 0]⟩).error = none ↔
        (77 : Byte) = MOTOR_INFORMATION.b0 ∧ (73 : Byte) = MOTOR_INFORMATION.b1) ∧
      (¬ ((77 : Byte) = MOTOR_INFORMATION.b0 ∧ (73 : Byte) = MOTOR_INFORMATION.b1) →
        (read_response_info_motor ⟨[77, 73, 48, 53, 10], [], [], false⟩ MOTOR_INFORMATION
          ⟨0, 0, [0, 0, 0]⟩).error = some "invalid motor info response commands") ∧
      (read_response_info_motor ⟨[77, 73], [], [], false⟩ MOTOR_INFORMATION
          ⟨0, 0, [0, 0, 0]⟩).error = some "unable to read response motor info") ∧
    (((read_response_info_sample_rate ⟨[77, 73, 48, 53, 10], [], [], false⟩ MOTOR_INFORMATION
          ⟨0, 0, [0, 0, 0]⟩).error = none ↔
        (77 : Byte) = MOTOR_INFORMATION.b0 ∧ (73 : Byte) = MOTOR_INFORMATION.b1) ∧
      (¬ ((77 : Byte) = MOTOR_INFORMATION.b0 ∧ (73 : Byte) = MOTOR_INFORMATION.b1) →
        (read_response_info_sample_rate ⟨[77, 73, 48, 53, 10], [], [], false⟩ MOTOR_INFORMATION
          ⟨0, 0, [0, 0, 0]⟩).error = some "invalid sample rate info response commands") ∧
      (read_response_info_sample_rate ⟨[77, 73], [], [], false⟩ MOTOR_INFORMATION
          ⟨0, 0, [0, 0, 0]⟩).error = some "unable to read response sample rate info") :=
  read_response_info_echo_only ⟨[77, 73, 48, 53, 10], [], [], false⟩ ⟨[77, 73], [], [], false⟩
    MOTOR_INFORMATION ⟨0, 0, [0, 0, 0]⟩ ⟨0, 0, [0, 0, 0]⟩ 77 73 [48, 53, 10] rfl
    (by decide) (by decide) (by decide) (by decide)

/-- C11 (counterexample): on the empty stream the initial full-window read fails, and on
the stream `01 01 01 01 01` the first single-byte refill read fails (in both the call
asked for more bytes than the transport had); in neither case is the error "invalid scan
response commands": it is "invalid response scan packet checksum". -/
theorem read_response_scan_read_failure_other_message :
    ((⟨[], [], [], false⟩ : Device).rx.length
        < requested ⟨[], [], [], false⟩
          (read_response_scan ⟨[], [], [], false⟩ ⟨0, 0, 0, 0, 0⟩).serial ∧
      (read_response_scan ⟨[], [], [], false⟩ ⟨0, 0, 0, 0, 0⟩).error
        ≠ some "invalid scan response commands" ∧
      (read_response_scan ⟨[], [], [], false⟩ ⟨0, 0, 0, 0, 0⟩).error
        = some "invalid response scan packet checksum") ∧
    ((⟨[1, 1, 1, 1, 1], [], [], false⟩ : Device).rx.length
        < requested ⟨[1, 1, 1, 1, 1], [], [], false⟩
          (read_response_scan ⟨[1, 1, 1, 1, 1], [], [], false⟩ ⟨0, 0, 0, 0, 0⟩).serial ∧
      (read_response_scan ⟨[1, 1, 1, 1, 1], [], [], false⟩ ⟨0, 0, 0, 0, 0⟩).serial.reads
        = [5, 1] ∧
      (read_response_scan ⟨[1, 1, 1, 1, 1], [], [], false⟩ ⟨0, 0, 0, 0, 0⟩).error
        ≠ some "invalid scan response commands" ∧
      (read_response_scan ⟨[1, 1, 1, 1, 1], [], [], false⟩ ⟨0, 0, 0, 0, 0⟩).error
        = some "invalid response scan packet checksum") := by
  decide

/-- C11 (amended): for every byte stream, when a transport read fails during
`read_response_scan` (the call asks for more bytes than the transport has left, in the
initial full-window read or in any single-byte refill read), the operation fails with the
error message "invalid response scan packet checksum", which is not the message "invalid
scan response commands" of the exhausted 100-shift bound. -/
theorem read_response_scan_read_failure (serial : Device) (scan : response_scan_packet_s)
    (hfail : serial.rx.length < requested serial (read_response_scan serial scan).serial) :
    (read_response_scan serial scan).error = some "invalid response scan packet checksum" ∧
    (read_response_scan serial scan).error ≠ some "invalid scan response commands" := by
  have key : (read_response_scan serial scan).error
      = some "invalid response scan packet checksum" := by
    by_cases hlen : 5 ≤ serial.rx.length
    · obtain ⟨m, _, _, hres⟩ := read_response_scan_run serial scan hlen
      rcases hres with ⟨a, _, c⟩ | ⟨_, _, _, _, e⟩
      · rw [c] at hfail
        rw [requested_of_reads serial _ (5 :: List.replicate m 1) rfl] at hfail
        simp only [List.sum_cons, sum_replicate_one] at hfail
        omega
      · exact e
    · exact read_response_scan_short serial scan (by omega)
  rw [key]
  exact ⟨rfl, by decide⟩

theorem read_response_scan_read_failure_witness :
    (read_response_scan ⟨[1, 1, 1, 1, 1, 1, 1], [], [], false⟩ ⟨0, 0, 0, 0, 0⟩).error
      = some "invalid response scan packet checksum" ∧
    (read_response_scan ⟨[1, 1, 1, 1, 1, 1, 1], [], [], false⟩ ⟨0, 0, 0, 0, 0⟩).error
      ≠ some "invalid scan response commands" :=
  read_response_scan_read_failure ⟨[1, 1, 1, 1, 1, 1, 1], [], [], false⟩ ⟨0, 0, 0, 0, 0⟩
    (by decide)

/-- C12: `write_command` reports an error if and only if its single transport write
reports a failure, and the message is then exactly "unable to write command";
`write_command_with_arguments` likewise with exactly "unable to write command with
arguments". Each hands the transport exactly one buffer, whether the write fails or not. -/
theorem write_command_error_iff (serial : Device) (c a : Cmd) :
    (((write_command serial c).2 ≠ none ↔
        (device_write serial [c.b0, c.b1, 0x0A]).2 = true) ∧
      ((write_command serial c).2 = none ∨
        (write_command serial c).2 = some "unable to write command") ∧
      (write_command serial c).1.writes.length = serial.writes.length + 1) ∧
    (((write_command_with_arguments serial c a).2 ≠ none ↔
        (device_write serial [c.b0, c.b1, a.b0, a.b1, 0x0A]).2 = true) ∧
      ((write_command_with_arguments serial c a).2 = none ∨
        (write_command_with_arguments serial c a).2
          = some "unable to write command with arguments") ∧
      (write_command_with_arguments serial c a).1.writes.length
        = serial.writes.length + 1) := by
  cases hf : serial.writeFails <;>
  simp [write_command, write_command_with_arguments, device_write, cmd_packet_s.toBytes,
    cmd_param_packet_s.toBytes, hf]

/-- C13: for each of `read_response_header`, `read_response_param`,
`read_response_info_motor` and `read_response_info_sample_rate`: whenever the transport
read fails (`dead` cannot deliver the packet), the operation fails with its I/O-failure
error, whatever bytes are in the destination buffer and whatever the expected command is;
that message differs from the operation's checksum-mismatch and cmd-echo-mismatch
messages, and no call whose read is served (`good`) ends with it. -/
theorem read_failure_is_io_error (dead good : Device) (cmd : Cmd)
    (header : response_header_s) (param : response_param_s)
    (motor : response_info_motor_s) (rate : response_info_sample_rate_s)
    (hdh : dead.rx.length < response_header_s.size)
    (hdp : dead.rx.length < response_param_s.size)
    (hdm : dead.rx.length < motor.toBytes.length)
    (hdr : dead.rx.length < rate.toBytes.length)
    (hgh : response_header_s.size ≤ good.rx.length)
    (hgp : response_param_s.size ≤ good.rx.length)
    (hgm : motor.toBytes.length ≤ good.rx.length)
    (hgr : rate.toBytes.length ≤ good.rx.length) :
    ((read_response_header dead cmd header).error = some "unable to read response header" ∧
      "unable to read response header" ≠ "invalid response header checksum" ∧
      "unable to read response header" ≠ "invalid header response commands" ∧
      (read_response_header good cmd header).error
        ≠ (read_response_header dead cmd header).error) ∧
    ((read_response_param dead cmd param).error
        = some "unable to read response param header" ∧
      "unable to read response param header" ≠ "invalid response param header checksum" ∧
      "unable to read response param header" ≠ "invalid param response commands" ∧
      (read_response_param good cmd param).error
        ≠ (read_response_param dead cmd param).error) ∧
    ((read_response_info_motor dead cmd motor).error
        = some "unable to read response motor info" ∧
      "unable to read response motor info" ≠ "invalid motor info response commands" ∧
      (read_response_info_motor good cmd motor).error
        ≠ (read_response_info_motor dead cmd motor).error) ∧
    ((read_response_info_sample_rate dead cmd rate).error
        = some "unable to read response sample rate info" ∧
      "unable to read response sample rate info"
        ≠ "invalid sample rate info response commands" ∧
      (read_response_info_sample_rate good cmd rate).error
        ≠ (read_response_info_sample_rate dead cmd rate).error) := by
  have hm2 : dead.rx.length < motor.payload.length + 2 := by
    simpa [response_info_motor_s.toBytes] using hdm
  have hr2 : dead.rx.length < rate.payload.length + 2 := by
    simpa [response_info_sample_rate_s.toBytes] using hdr
  rw [read_response_header_short dead cmd header hdh,
    read_response_param_short dead cmd param hdp,
    read_response_info_motor_short dead cmd motor hm2,
    read_response_info_sample_rate_short dead cmd rate hr2]
  exact ⟨⟨rfl, by decide, by decide, read_response_header_served good cmd header hgh⟩,
    ⟨rfl, by decide, by decide, read_response_param_served good cmd param hgp⟩,
    ⟨rfl, by decide, read_response_info_motor_served good cmd motor hgm⟩,
    ⟨rfl, by decide, read_response_info_sample_rate_served good cmd rate hgr⟩⟩

theorem read_failure_is_io_error_witness :
    ((read_response_header ⟨[68, 83, 1], [], [], false⟩ DATA_ACQUISITION_START
          ⟨9, 9, 9, 9, 9⟩).error = some "unable to read response header" ∧
      "unable to read response header" ≠ "invalid response header checksum" ∧
      "unable to read response header" ≠ "invalid header response commands" ∧
      (read_response_header ⟨[68, 83, 1, 2, 0x33], [], [], false⟩ DATA_ACQUISITION_START
          ⟨9, 9, 9, 9, 9⟩).error
        ≠ (read_response_header ⟨[68, 83, 1], [], [], false⟩ DATA_ACQUISITION_START
          ⟨9, 9, 9, 9, 9⟩).error) ∧
    ((read_response_param ⟨[68, 83, 1], [], [], false⟩ DATA_ACQUISITION_START
          ⟨9, 9, 9, 9, 9⟩).error = some "unable to read response param header" ∧
      "unable to read response param header" ≠ "invalid response param header checksum" ∧
      "unable to read response param header" ≠ "invalid param response commands" ∧
      (read_response_param ⟨[68, 83, 1, 2, 0x33], [], [], false⟩ DATA_ACQUISITION_START
          ⟨9, 9, 9, 9, 9⟩).error
        ≠ (read_response_param ⟨[68, 83, 1], [], [], false⟩ DATA_ACQUISITION_START
          ⟨9, 9, 9, 9, 9⟩).error) ∧
    ((read_response_info_motor ⟨[68, 83, 1], [], [], false⟩ DATA_ACQUISITION_START
          ⟨9, 9, [9, 9, 9]⟩).error = some "unable to read response motor info" ∧
      "unable to read response motor info" ≠ "invalid motor info response commands" ∧
      (read_response_info_motor ⟨[68, 83, 1, 2, 0x33], [], [], false⟩ DATA_ACQUISITION_START
          ⟨9, 9, [9, 9, 9]⟩).error
        ≠ (read_response_info_motor ⟨[68, 83, 1], [], [], false⟩ DATA_ACQUISITION_START
          ⟨9, 9, [9, 9, 9]⟩).error) ∧
    ((read_response_info_sample_rate ⟨[68, 83, 1], [], [], false⟩ DATA_ACQUISITION_START
          ⟨9, 9, [9, 9, 9]⟩).error = some "unable to read response sample rate info" ∧
      "unable to read response sample rate info"
        ≠ "invalid sample rate info response commands" ∧
      (read_response_info_sample_rate ⟨[68, 83, 1, 2, 0x33], [], [], false⟩
          DATA_ACQUISITION_START ⟨9, 9, [9, 9, 9]⟩).error
        ≠ (read_response_info_sample_rate ⟨[68, 83, 1], [], [], false⟩
          DATA_ACQUISITION_START ⟨9, 9, [9, 9, 9]⟩).error) :=
  read_failure_is_io_error ⟨[68, 83, 1], [], [], false⟩ ⟨[68, 83, 1, 2, 0x33], [], [], false⟩
    DATA_ACQUISITION_START ⟨9, 9, 9, 9, 9⟩ ⟨9, 9, 9, 9, 9⟩ ⟨9, 9, [9, 9, 9]⟩ ⟨9, 9, [9, 9, 9]⟩
    (by decide) (by decide) (by decide) (by decide)
    (by decide) (by decide) (by decide) (by decide)

/-- C14: the ten exported command codes hold exactly the two ASCII bytes of "DS", "DX",
"MS", "MI", "LR", "LI", "IV", "ID", "RR", "CS", in the order of their declarations, and
are pairwise distinct; so when a response echoes one of the codes, every decoder called
with another of the codes rejects it. -/
theorem command_codes_distinct (serial : Device) (a b : Cmd)
    (header : response_header_s) (param : response_param_s)
    (motor : response_info_motor_s) (rate : response_info_sample_rate_s)
    (rest : List Byte)
    (ha : a ∈ command_codes) (hb : b ∈ command_codes) (hab : a ≠ b)
    (hrx : serial.rx = b.b0 :: b.b1 :: rest) (hlen : 3 ≤ rest.length)
    (hm : motor.payload.length ≤ rest.length) (hr : rate.payload.length ≤ rest.length) :
    command_codes.map (fun c => [c.b0, c.b1])
      = ["DS", "DX", "MS", "MI", "LR", "LI", "IV", "ID", "RR", "CS"].map
          (fun s => s.toList.map ascii) ∧
    command_codes.map (fun c => [c.b0.val, c.b1.val])
      = [[0x44, 0x53], [0x44, 0x58], [0x4D, 0x53], [0x4D, 0x49], [0x4C, 0x52],
          [0x4C, 0x49], [0x49, 0x56], [0x49, 0x44], [0x52, 0x52], [0x43, 0x53]] ∧
    command_codes.Nodup ∧
    (read_response_header serial a header).error ≠ none ∧
    (read_response_param serial a param).error ≠ none ∧
    (read_response_info_motor serial a motor).error
      = some "invalid motor info response commands" ∧
    (read_response_info_sample_rate serial a rate).error
      = some "invalid sample rate info response commands" := by
  have hne : ¬ (b.b0 = a.b0 ∧ b.b1 = a.b1) := by
    rintro ⟨h0, h1⟩
    apply hab
    cases a; cases b
    simp_all
  refine ⟨by decide, by decide, by decide, ?_, ?_, ?_, ?_⟩
  · match rest, hlen with
    | s1 :: s2 :: sum :: rest, _ =>
      rw [read_response_header_eq serial a header b.b0 b.b1 s1 s2 sum rest hrx]
      simp only [hne, not_false_eq_true, if_true]
      split <;> simp
  · match rest, hlen with
    | s1 :: s2 :: sum :: rest, _ =>
      rw [read_response_param_eq serial a param b.b0 b.b1 s1 s2 sum rest hrx]
      simp only [hne, not_false_eq_true, if_true]
      split <;> simp
  · rw [read_response_info_motor_eq serial a motor b.b0 b.b1 rest hrx hm]
    simp [hne]
  · rw [read_response_info_sample_rate_eq serial a rate b.b0 b.b1 rest hrx hr]
    simp [hne]

theorem command_codes_distinct_witness :
    command_codes.map (fun c => [c.b0, c.b1])
      = ["DS", "DX", "MS", "MI", "LR", "LI", "IV", "ID", "RR", "CS"].map
          (fun s => s.toList.map ascii) ∧
    command_codes.map (fun c => [c.b0.val, c.b1.val])
      = [[0x44, 0x53], [0x44, 0x58], [0x4D, 0x53], [0x4D, 0x49], [0x4C, 0x52],
          [0x4C, 0x49], [0x49, 0x56], [0x49, 0x44], [0x52, 0x52], [0x43, 0x53]] ∧
    command_codes.Nodup ∧
    (read_response_header ⟨[68, 88, 1, 2, 0x33], [], [], false⟩ DATA_ACQUISITION_START
      ⟨0, 0, 0, 0, 0⟩).error ≠ none ∧
    (read_response_param ⟨[68, 88, 1, 2, 0x33], [], [], false⟩ DATA_ACQUISITION_START
      ⟨0, 0, 0, 0, 0⟩).error ≠ none ∧
    (read_response_info_motor ⟨[68, 88, 1, 2, 0x33], [], [], false⟩ DATA_ACQUISITION_START
      ⟨0, 0, [0, 0, 0]⟩).error = some "invalid motor info response commands" ∧
    (read_response_info_sample_rate ⟨[68, 88, 1, 2, 0x33], [], [], false⟩
      DATA_ACQUISITION_START ⟨0, 0, [0, 0, 0]⟩).error
      = some "invalid sample rate info response commands" :=
  command_codes_distinct ⟨[68, 88, 1, 2, 0x33], [], [], false⟩ DATA_ACQUISITION_START
    DATA_ACQUISITION_STOP ⟨0, 0, 0, 0, 0⟩ ⟨0, 0, 0, 0, 0⟩ ⟨0, 0, [0, 0, 0]⟩ ⟨0, 0, [0, 0, 0]⟩
    [1, 2, 0x33] (by decide) (by decide) (by decide) (by decide) (by decide) (by decide)
    (by decide)

/-- C15: for every byte stream on which the reads of `read_response_scan` are all served,
with `k` the number of shifts made: `k ≤ 100`; the window holds exactly the stream bytes
`b_k .. b_(k+4)`; exactly `5 + k` bytes have been asked for and consumed, in one
full-window read followed by `k` single-byte reads; every window at an offset below `k`
failed its test, and the decoder stopped before the bound only because the window at
offset `k` passes it; and the call succeeds exactly when that final window, which is the
record handed back, passes its test. -/
theorem read_response_scan_sliding_window (serial : Device) (scan : response_scan_packet_s)
    (hserved : requested serial (read_response_scan serial scan).serial ≤ serial.rx.length) :
    shifts serial (read_response_scan serial scan).serial ≤ 100 ∧
    (read_response_scan serial scan).out
      = windowAt serial.rx (shifts serial (read_response_scan serial scan).serial) ∧
    (read_response_scan serial scan).serial.rx
      = serial.rx.drop (5 + shifts serial (read_response_scan serial scan).serial) ∧
    (read_response_scan serial scan).serial.reads
      = serial.reads ++ 5 :: List.replicate
          (shifts serial (read_response_scan serial scan).serial) 1 ∧
    requested serial (read_response_scan serial scan).serial
      = 5 + shifts serial (read_response_scan serial scan).serial ∧
    (∀ j, j < shifts serial (read_response_scan serial scan).serial →
      ¬ window_passes serial.rx j) ∧
    (shifts serial (read_response_scan serial scan).serial < 100 →
      window_passes serial.rx (shifts serial (read_response_scan serial scan).serial)) ∧
    ((read_response_scan serial scan).error = none ↔
      window_passes serial.rx (shifts serial (read_response_scan serial scan).serial)) := by
  by_cases hlen : 5 ≤ serial.rx.length
  · obtain ⟨m, hm, hrej, hres⟩ := read_response_scan_run serial scan hlen
    rcases hres with ⟨_, hstop, c⟩ | ⟨b, _, _, d, _⟩
    · have hs : shifts serial (read_response_scan serial scan).serial = m := by
        rw [c, shifts_of_reads serial _ (5 :: List.replicate m 1) rfl]
        simp
      have hq : requested serial (read_response_scan serial scan).serial = 5 + m := by
        rw [c, requested_of_reads serial _ (5 :: List.replicate m 1) rfl]
        simp [sum_replicate_one]
      rw [hs, hq]
      refine ⟨hm, ?_, ?_, ?_, rfl, hrej, hstop, ?_⟩
      · rw [c]
      · rw [c]
      · rw [c]
      · rw [c]
        by_cases hp : window_passes serial.rx m <;> simp [hp]
    · rw [requested_of_reads serial _ (5 :: List.replicate (m + 1) 1) (by rw [d])] at hserved
      simp only [List.sum_cons, sum_replicate_one] at hserved
      omega
  · rw [requested_of_reads serial _ [5]
      (by rw [read_response_scan_short_serial serial scan (by omega)])] at hserved
    simp at hserved
    omega

theorem read_response_scan_sliding_window_witness :
    shifts ⟨[1, 8, 7, 0, 0, 0x33, 9], [], [], false⟩
      (read_response_scan ⟨[1, 8, 7, 0, 0, 0x33, 9], [], [], false⟩ ⟨0, 0, 0, 0, 0⟩).serial = 1 ∧
    (read_response_scan ⟨[1, 8, 7, 0, 0, 0x33, 9], [], [], false⟩ ⟨0, 0, 0, 0, 0⟩).out
      = windowAt [1, 8, 7, 0, 0, 0x33, 9] 1 ∧
    (read_response_scan ⟨[1, 8, 7, 0, 0, 0x33, 9], [], [], false⟩ ⟨0, 0, 0, 0, 0⟩).error = none ∧
    window_passes [1, 8, 7, 0, 0, 0x33, 9] 1 ∧ ¬ window_passes [1, 8, 7, 0, 0, 0x33, 9] 0 :=
  have h := read_response_scan_sliding_window ⟨[1, 8, 7, 0, 0, 0x33, 9], [], [], false⟩
    ⟨0, 0, 0, 0, 0⟩ (by decide)
  have hs : shifts ⟨[1, 8, 7, 0, 0, 0x33, 9], [], [], false⟩
      (read_response_scan ⟨[1, 8, 7, 0, 0, 0x33, 9], [], [], false⟩ ⟨0, 0, 0, 0, 0⟩).serial = 1 := by
    decide
  ⟨hs, hs ▸ h.2.1, by decide, hs ▸ h.2.2.2.2.2.2.1 (by decide),
    h.2.2.2.2.2.1 0 (by decide)⟩

/-- C16: for every valid scan record `r` (transmitted checksum equal to the mod-15
formula `(((distance_low<<3)+(VHL<<2)+(s2<<1)+s1) + distance_high + (angle&0xFF) +
(angle>>8) + (VRECT<<4)) mod 15`, `s1 = 1`, `s2 = 0`) and every continuation of the
stream, when the transport's first bytes are those of `r`, `read_response_scan` succeeds
with no shift, returns exactly `r`, and has consumed exactly `record_length` bytes, in a
single read of that length (none of the bytes that follow `r`). -/
theorem read_response_scan_aligned (serial : Device) (scan r : response_scan_packet_s)
    (rest : List Byte)
    (hrx : serial.rx = r.p0 :: r.p1 :: r.p2 :: r.p3 :: r.p4 :: rest)
    (hck : r.checksum = scan_sum r % 15) (_hs1 : r.s1 = 1) (_hs2 : r.s2 = 0) :
    (read_response_scan serial scan).error = none ∧
    (read_response_scan serial scan).out = r ∧
    shifts serial (read_response_scan serial scan).serial = 0 ∧
    (read_response_scan serial scan).serial.rx = rest ∧
    (read_response_scan serial scan).serial.reads
      = serial.reads ++ [response_scan_packet_s.size] := by
  have hlen : 5 ≤ serial.rx.length := by simp [hrx]
  have hw : windowAt serial.rx 0 = r := by simp [windowAt, hrx]
  have hok : checksum_ok (windowAt serial.rx 0) := hw ▸ (checksum_ok_iff r).2 hck
  rw [read_response_scan_first_window serial scan hlen hok, hw]
  simp [shifts, hrx, response_scan_packet_s.size]

theorem read_response_scan_aligned_witness :
    (scan_sum ⟨1, 14, 0, 0, 0x77⟩ = 127 ∧
      response_scan_packet_s.checksum ⟨1, 14, 0, 0, 0x77⟩ = scan_sum ⟨1, 14, 0, 0, 0x77⟩ % 15 ∧
      response_scan_packet_s.s1 ⟨1, 14, 0, 0, 0x77⟩ = 1 ∧
      response_scan_packet_s.s2 ⟨1, 14, 0, 0, 0x77⟩ = 0) ∧
    (read_response_scan ⟨[1, 14, 0, 0, 0x77, 7, 7], [], [], false⟩ ⟨0, 0, 0, 0, 0⟩).error = none ∧
    (read_response_scan ⟨[1, 14, 0, 0, 0x77, 7, 7], [], [], false⟩ ⟨0, 0, 0, 0, 0⟩).out
      = ⟨1, 14, 0, 0, 0x77⟩ ∧
    shifts ⟨[1, 14, 0, 0, 0x77, 7, 7], [], [], false⟩
      (read_response_scan ⟨[1, 14, 0, 0, 0x77, 7, 7], [], [], false⟩ ⟨0, 0, 0, 0, 0⟩).serial = 0 ∧
    (read_response_scan ⟨[1, 14, 0, 0, 0x77, 7, 7], [], [], false⟩ ⟨0, 0, 0, 0, 0⟩).serial.rx
      = [7, 7] ∧
    (read_response_scan ⟨[1, 14, 0, 0, 0x77, 7, 7], [], [], false⟩ ⟨0, 0, 0, 0, 0⟩).serial.reads
      = [] ++ [response_scan_packet_s.size] :=
  ⟨by decide,
    read_response_scan_aligned ⟨[1, 14, 0, 0, 0x77, 7, 7], [], [], false⟩ ⟨0, 0, 0, 0, 0⟩
      ⟨1, 14, 0, 0, 0x77⟩ [7, 7] rfl (by decide) (by decide) (by decide)⟩

/-- C17: `read_response_scan` is a total function of the transport, and on every
transport it makes one full-window read followed by at most 100 single-byte reads, asks
for at most `record_length + 100` bytes and consumes at most that many; and in the loop,
entered with `count = n`, the counter has been decreased once for each of the `m ≤ n`
shifts made when the loop is left, so it never passes below 0, and no more than `n`
single-byte reads are made (the shifts, and a last failed read if there is one). -/
theorem read_response_scan_bounded (serial : Device) (scan : response_scan_packet_s)
    (n ck : Nat) :
    (∃ k, k ≤ 100 ∧
      (read_response_scan serial scan).serial.reads
        = serial.reads ++ response_scan_packet_s.size :: List.replicate k 1 ∧
      requested serial (read_response_scan serial scan).serial
        ≤ response_scan_packet_s.size + 100 ∧
      ∃ c, c ≤ response_scan_packet_s.size + 100 ∧
        (read_response_scan serial scan).serial.rx = serial.rx.drop c) ∧
    (∃ m, m ≤ n ∧ (scan_loop n serial scan ck).count + m = n ∧
      m + (if (scan_loop n serial scan ck).readFailed then 1 else 0) ≤ n ∧
      (scan_loop n serial scan ck).serial.reads
        = serial.reads ++ List.replicate
            (m + (if (scan_loop n serial scan ck).readFailed then 1 else 0)) 1) := by
  constructor
  · simp only [response_scan_packet_s.size]
    by_cases hlen : 5 ≤ serial.rx.length
    · obtain ⟨m, hm, _, hres⟩ := read_response_scan_run serial scan hlen
      rcases hres with ⟨_, _, c⟩ | ⟨b, hlt, _, d, _⟩
      · refine ⟨m, hm, by rw [c], ?_, 5 + m, by omega, by rw [c]⟩
        rw [c, requested_of_reads serial _ (5 :: List.replicate m 1) rfl]
        simp only [List.sum_cons, sum_replicate_one]
        omega
      · refine ⟨m + 1, by omega, by rw [d], ?_, serial.rx.length, by omega, ?_⟩
        · rw [requested_of_reads serial _ (5 :: List.replicate (m + 1) 1) (by rw [d])]
          simp only [List.sum_cons, sum_replicate_one]
          omega
        · rw [d]; simp
    · have hs := read_response_scan_short_serial serial scan (by omega)
      refine ⟨0, by omega, by rw [hs]; rfl, ?_, serial.rx.length, by omega, ?_⟩
      · rw [requested_of_reads serial _ [5] (by rw [hs])]
        simp
      · rw [hs]; simp
  · have hw : windowAt (scan.toBytes ++ serial.rx) 0 = scan := by
      simp [windowAt, response_scan_packet_s.toBytes]
    obtain ⟨m, hm, _, _, hcount, hres⟩ := scan_loop_run (scan.toBytes ++ serial.rx) n 0 serial ck
      (by simp [response_scan_packet_s.toBytes]) (by simp [response_scan_packet_s.toBytes])
    rw [hw] at hcount hres
    refine ⟨m, hm, hcount, ?_⟩
    rcases hres with ⟨a, _, _, d, _, _⟩ | ⟨a, _, c, d, _⟩
    · rw [a, d]; simp [hm]
    · rw [a, d]; simp; omega

/-- C18: the acceptance predicate of `read_response_scan` after resynchronisation, with
the mod-15 checksum of a window `W` being `(((distance_low<<3)+(VHL<<2)+(s2<<1)+s1) +
distance_high + (angle&0xFF) + (angle>>8) + (VRECT<<4)) mod 15`. If the call succeeds
after at least one shift, the returned window `W` satisfies: either the two lowest bits of
its first byte are both 0 and its transmitted checksum equals the mod-15 checksum computed
over `W`, or they are not both 0 and its transmitted checksum is 0. Conversely, a window
that the search reaches at shift `k` (`1 ≤ k ≤ 100`, the bytes are there, the first window
has a transmitted checksum different from its mod-15 checksum and the windows at shifts
`1 .. k - 1` do not satisfy the predicate) and that satisfies this predicate ends the
search with success. A window accepted with no shift has its transmitted checksum equal to
its mod-15 checksum, and the first window is accepted on that equality alone, with no
condition on its first byte. -/
theorem read_response_scan_acceptance (serial : Device) (scan : response_scan_packet_s) :
    ((read_response_scan serial scan).error = none →
      0 < shifts serial (read_response_scan serial scan).serial →
      resync_accepts (read_response_scan serial scan).out) ∧
    (∀ k, 1 ≤ k → k ≤ 100 → 5 + k ≤ serial.rx.length →
      (windowAt serial.rx 0).checksum ≠ scan_sum (windowAt serial.rx 0) % 15 →
      (∀ j, 1 ≤ j → j < k → ¬ resync_accepts (windowAt serial.rx j)) →
      resync_accepts (windowAt serial.rx k) →
      (read_response_scan serial scan).error = none ∧
      (read_response_scan serial scan).out = windowAt serial.rx k ∧
      shifts serial (read_response_scan serial scan).serial = k) ∧
    ((read_response_scan serial scan).error = none →
      shifts serial (read_response_scan serial scan).serial = 0 →
      (read_response_scan serial scan).out.checksum
        = scan_sum (read_response_scan serial scan).out % 15) ∧
    (5 ≤ serial.rx.length →
      (windowAt serial.rx 0).checksum = scan_sum (windowAt serial.rx 0) % 15 →
      (read_response_scan serial scan).error = none ∧
      (read_response_scan serial scan).out = windowAt serial.rx 0 ∧
      shifts serial (read_response_scan serial scan).serial = 0) := by
  have hsucc : ∀ m, read_response_scan serial scan =
      ⟨{ serial with rx := serial.rx.drop (5 + m),
                     reads := serial.reads ++ 5 :: List.replicate m 1 },
        windowAt serial.rx m,
        if window_passes serial.rx m then none else some "invalid scan response commands"⟩ →
      shifts serial (read_response_scan serial scan).serial = m := by
    intro m c
    rw [c, shifts_of_reads serial _ (5 :: List.replicate m 1) rfl]
    simp
  have hcase : (read_response_scan serial scan).error = none →
      ∃ m, shifts serial (read_response_scan serial scan).serial = m ∧
        (read_response_scan serial scan).out = windowAt serial.rx m ∧
        window_passes serial.rx m := by
    intro hok
    by_cases hlen : 5 ≤ serial.rx.length
    · obtain ⟨m, _, _, hres⟩ := read_response_scan_run serial scan hlen
      rcases hres with ⟨_, _, c⟩ | ⟨_, _, _, _, e⟩
      · refine ⟨m, hsucc m c, by rw [c], ?_⟩
        rw [c] at hok
        by_cases hp : window_passes serial.rx m
        · exact hp
        · simp [hp] at hok
      · rw [e] at hok; simp at hok
    · rw [read_response_scan_short serial scan (by omega)] at hok
      simp at hok
  have hpass : ∀ j, j ≠ 0 → (window_passes serial.rx j ↔ resync_accepts (windowAt serial.rx j)) := by
    intro j hj
    simp only [window_passes, hj, if_false]
    exact loop_checksum_eq_iff _
  have hpass0 : window_passes serial.rx 0 ↔
      (windowAt serial.rx 0).checksum = scan_sum (windowAt serial.rx 0) % 15 := by
    simp only [window_passes, if_true]
    exact checksum_ok_iff _
  refine ⟨?_, ?_, ?_, ?_⟩
  · intro hok hpos
    obtain ⟨m, hs, ho, hp⟩ := hcase hok
    rw [hs] at hpos
    rw [ho]
    exact (hpass m (by omega)).1 hp
  · intro k hk1 hk100 hklen hfirst hbefore hacc
    have hpk : window_passes serial.rx k := (hpass k (by omega)).2 hacc
    have hnot : ∀ j, j < k → ¬ window_passes serial.rx j := by
      intro j hj hp
      by_cases hj0 : j = 0
      · subst hj0; exact hfirst (hpass0.1 hp)
      · exact hbefore j (by omega) hj ((hpass j hj0).1 hp)
    obtain ⟨m, hm, hrej, hres⟩ := read_response_scan_run serial scan (by omega)
    have hmk : ¬ k < m := fun h => hrej k h hpk
    rcases hres with ⟨_, hstop, c⟩ | ⟨b, _, hnp, _, _⟩
    · have hkm : ¬ m < k := fun h => hnot m h (hstop (by omega))
      have hmeq : m = k := by omega
      subst hmeq
      refine ⟨?_, by rw [c], hsucc m c⟩
      rw [c]; simp [hpk]
    · have hmeq : m = k := by omega
      subst hmeq
      exact absurd hpk hnp
  · intro hok hzero
    obtain ⟨m, hs, ho, hp⟩ := hcase hok
    rw [hs] at hzero
    subst hzero
    rw [ho]
    exact hpass0.1 hp
  · intro hlen hck
    rw [read_response_scan_first_window serial scan hlen (hpass0.2 hck)]
    simp [shifts]

theorem read_response_scan_acceptance_witness :
    resync_accepts (read_response_scan ⟨[1, 8, 7, 0, 0, 0x33, 9], [], [], false⟩
      ⟨0, 0, 0, 0, 0⟩).out ∧
    ((read_response_scan ⟨[1, 8, 7, 0, 0, 0x33, 9], [], [], false⟩ ⟨0, 0, 0, 0, 0⟩).error = none ∧
      (read_response_scan ⟨[1, 8, 7, 0, 0, 0x33, 9], [], [], false⟩ ⟨0, 0, 0, 0, 0⟩).out
        = windowAt [1, 8, 7, 0, 0, 0x33, 9] 1 ∧
      shifts ⟨[1, 8, 7, 0, 0, 0x33, 9], [], [], false⟩
        (read_response_scan ⟨[1, 8, 7, 0, 0, 0x33, 9], [], [], false⟩ ⟨0, 0, 0, 0, 0⟩).serial
        = 1) ∧
    (read_response_scan ⟨[2, 13, 0, 0, 0x33], [], [], false⟩ ⟨0, 0, 0, 0, 0⟩).out.checksum
      = scan_sum (read_response_scan ⟨[2, 13, 0, 0, 0x33], [], [], false⟩ ⟨0, 0, 0, 0, 0⟩).out % 15 ∧
    ((read_response_scan ⟨[2, 13, 0, 0, 0x33], [], [], false⟩ ⟨0, 0, 0, 0, 0⟩).error = none ∧
      (read_response_scan ⟨[2, 13, 0, 0, 0x33], [], [], false⟩ ⟨0, 0, 0, 0, 0⟩).out
        = windowAt [2, 13, 0, 0, 0x33] 0 ∧
      shifts ⟨[2, 13, 0, 0, 0x33], [], [], false⟩
        (read_response_scan ⟨[2, 13, 0, 0, 0x33], [], [], false⟩ ⟨0, 0, 0, 0, 0⟩).serial = 0) :=
  ⟨(read_response_scan_acceptance ⟨[1, 8, 7, 0, 0, 0x33, 9], [], [], false⟩ ⟨0, 0, 0, 0, 0⟩).1
      (by decide) (by decide),
    (read_response_scan_acceptance ⟨[1, 8, 7, 0, 0, 0x33, 9], [], [], false⟩ ⟨0, 0, 0, 0, 0⟩).2.1
      1 (by decide) (by decide) (by decide) (by decide) (by decide) (by decide),
    (read_response_scan_acceptance ⟨[2, 13, 0, 0, 0x33], [], [], false⟩ ⟨0, 0, 0, 0, 0⟩).2.2.1
      (by decide) (by decide),
    (read_response_scan_acceptance ⟨[2, 13, 0, 0, 0x33], [], [], false⟩ ⟨0, 0, 0, 0, 0⟩).2.2.2
      (by decide) (by decide)⟩

/-- The status checksum is not truncated and lies in `0x30 .. 0x6F`. -/
theorem checksum_response_header_range (v : response_header_s) :
    checksum_response_header v
        = ((v.cmdStatusByte1.val + v.cmdStatusByte2.val) &&& 0x3F) + 0x30 ∧
      0x30 ≤ checksum_response_header v ∧ checksum_response_header v ≤ 0x6F := by
  have h : (v.cmdStatusByte1.val + v.cmdStatusByte2.val) &&& 0x3F ≤ 0x3F := Nat.and_le_right
  unfold checksum_response_header
  rw [status_checksum_fits]
  omega

/-- The status checksum of a param response is not truncated and lies in `0x30 .. 0x6F`. -/
theorem checksum_response_param_range (v : response_param_s) :
    checksum_response_param v
        = ((v.cmdStatusByte1.val + v.cmdStatusByte2.val) &&& 0x3F) + 0x30 ∧
      0x30 ≤ checksum_response_param v ∧ checksum_response_param v ≤ 0x6F := by
  have h : (v.cmdStatusByte1.val + v.cmdStatusByte2.val) &&& 0x3F ≤ 0x3F := Nat.and_le_right
  unfold checksum_response_param
  rw [status_checksum_fits]
  omega

/-- C19: for all status bytes, `checksum_response_header` and `checksum_response_param`
return `((status1 + status2) & 0x3F) + 0x30` without any 8-bit truncation, a value in
`0x30 .. 0x6F`; so when the transport delivers a response whose checksum byte lies outside
`0x30 .. 0x6F`, `read_response_header` and `read_response_param` fail with their
checksum-mismatch error, whatever the status bytes, cmd-echo bytes and expected command
are. -/
theorem status_checksum_range (v : response_header_s) (w : response_param_s)
    (serial : Device) (cmd : Cmd) (header : response_header_s) (param : response_param_s)
    (c1 c2 s1 s2 sum : Byte) (rest : List Byte)
    (hrx : serial.rx = c1 :: c2 :: s1 :: s2 :: sum :: rest)
    (hout : sum.val < 0x30 ∨ 0x6F < sum.val) :
    (checksum_response_header v
        = ((v.cmdStatusByte1.val + v.cmdStatusByte2.val) &&& 0x3F) + 0x30 ∧
      0x30 ≤ checksum_response_header v ∧ checksum_response_header v ≤ 0x6F) ∧
    (checksum_response_param w
        = ((w.cmdStatusByte1.val + w.cmdStatusByte2.val) &&& 0x3F) + 0x30 ∧
      0x30 ≤ checksum_response_param w ∧ checksum_response_param w ≤ 0x6F) ∧
    (read_response_header serial cmd header).error = some "invalid response header checksum" ∧
    (read_response_param serial cmd param).error
      = some "invalid response param header checksum" := by
  have h : (s1.val + s2.val) &&& 0x3F ≤ 0x3F := Nat.and_le_right
  have hne : ((s1.val + s2.val) &&& 0x3F) + 0x30 ≠ sum.val := by omega
  rw [read_response_header_eq serial cmd header c1 c2 s1 s2 sum rest hrx,
    read_response_param_eq serial cmd param c1 c2 s1 s2 sum rest hrx]
  exact ⟨checksum_response_header_range v, checksum_response_param_range w,
    by simp [hne], by simp [hne]⟩

theorem status_checksum_range_witness :
    (checksum_response_header ⟨68, 83, 0xFF, 0xFF, 0⟩
        = (((0xFF : Byte).val + (0xFF : Byte).val) &&& 0x3F) + 0x30 ∧
      0x30 ≤ checksum_response_header ⟨68, 83, 0xFF, 0xFF, 0⟩ ∧
      checksum_response_header ⟨68, 83, 0xFF, 0xFF, 0⟩ ≤ 0x6F) ∧
    (checksum_response_param ⟨68, 83, 0xFF, 0xFF, 0⟩
        = (((0xFF : Byte).val + (0xFF : Byte).val) &&& 0x3F) + 0x30 ∧
      0x30 ≤ checksum_response_param ⟨68, 83, 0xFF, 0xFF, 0⟩ ∧
      checksum_response_param ⟨68, 83, 0xFF, 0xFF, 0⟩ ≤ 0x6F) ∧
    (read_response_header ⟨[68, 83, 0xFF, 0xFF, 0x70], [], [], false⟩ DATA_ACQUISITION_START
      ⟨0, 0, 0, 0, 0⟩).error = some "invalid response header checksum" ∧
    (read_response_param ⟨[68, 83, 0xFF, 0xFF, 0x70], [], [], false⟩ DATA_ACQUISITION_START
      ⟨0, 0, 0, 0, 0⟩).error = some "invalid response param header checksum" :=
  status_checksum_range ⟨68, 83, 0xFF, 0xFF, 0⟩ ⟨68, 83, 0xFF, 0xFF, 0⟩
    ⟨[68, 83, 0xFF, 0xFF, 0x70], [], [], false⟩ DATA_ACQUISITION_START ⟨0, 0, 0, 0, 0⟩
    ⟨0, 0, 0, 0, 0⟩ 68 83 0xFF 0xFF 0x70 [] rfl (by decide)

end protocol

end neo
